import Mathlib

/-!
Verification of the HTTP-over-QUIC session core (HQSession.cpp).

This file is a shallow embedding of the session-level state machine and of
several per-stream egress routines of the source file
proxygen/lib/http/session/HQSession.cpp, together with theorems settling the
frozen claims about it.  Every definition is translated from the source;
definitions that transcribe the claim text for comparison are named with a
spec- prefix and documented as such.
-/

namespace HQ

/-- Transport direction of the session (client = UPSTREAM, server =
DOWNSTREAM). -/
inductive TransportDirection
  | UPSTREAM
  | DOWNSTREAM
deriving DecidableEq, Fintype

/-- The negotiated version profile (HQSession.h enum HQVersion; the three
variants correspond to the three VersionUtils subclasses in the source). -/
inductive HQVersion
  | H1Q_FB_V1
  | H1Q_FB_V2
  | HQ
deriving DecidableEq, Fintype

/-- Drain state of the session (enum DrainState in HQSession.h, as listed in
the data-model section of the specification). -/
inductive DrainState
  | NONE
  | PENDING
  | CLOSE_SENT
  | CLOSE_RECEIVED
  | FIRST_GOAWAY
  | SECOND_GOAWAY
  | DONE
deriving DecidableEq, Fintype

/-- Rank of a drain state under the ordering of the monotonicity claim:
NONE < PENDING < CLOSE_SENT < CLOSE_RECEIVED < FIRST_GOAWAY < SECOND_GOAWAY
< DONE. -/
def drainRank : DrainState → Nat
  | .NONE => 0
  | .PENDING => 1
  | .CLOSE_SENT => 2
  | .CLOSE_RECEIVED => 3
  | .FIRST_GOAWAY => 4
  | .SECOND_GOAWAY => 5
  | .DONE => 6

/-- Unidirectional stream types used by the version profiles. -/
inductive UnidirectionalStreamType
  | CONTROL
  | PUSH
  | QPACK_ENCODER
  | QPACK_DECODER
  | H1Q_CONTROL
deriving DecidableEq, Fintype

/-- HTTP/3 application error codes appearing in HQSession.cpp. -/
inductive HTTP3ErrorCode
  | HTTP_NO_ERROR
  | HTTP_WRONG_STREAM
  | HTTP_WRONG_STREAM_COUNT
  | HTTP_CLOSED_CRITICAL_STREAM
  | HTTP_REQUEST_CANCELLED
  | HTTP_REQUEST_REJECTED
  | HTTP_INTERNAL_ERROR
  | HTTP_UNKNOWN_STREAM_TYPE
  | GIVEUP_ZERO_RTT
deriving DecidableEq, Fintype

/-- Proxygen error codes delivered to transactions in HQSession.cpp. -/
inductive ProxygenError
  | kErrorStreamAbort
  | kErrorStreamUnacknowledged
  | kErrorEarlyDataFailed
  | kErrorDropped
  | kErrorConnection
  | kErrorConnectionReset
  | kErrorWrite
deriving DecidableEq, Fintype

/-- quic::kEightByteLimit, the largest value representable in a QUIC varint. -/
def kEightByteLimit : Nat := 2 ^ 62 - 1

/-- quic stream id bit 0: server-initiated stream (QuicSocket::isServerStream). -/
def isServerStream (id : Nat) : Bool := id % 2 = 1

/-- quic stream id bit 1 set: unidirectional stream
(QuicSocket::isUnidirectionalStream). -/
def isUnidirectionalStream (id : Nat) : Bool := id % 4 ≥ 2

/-- quic stream id bit 1 clear: bidirectional stream
(QuicSocket::isBidirectionalStream). -/
def isBidirectionalStream (id : Nat) : Bool := id % 4 < 2

/-- A request stream entry of the session stream registry.  `fromPeer` records
whether the stream was created by onNewBidirectionalStream (peer-initiated)
or by newTransaction (locally initiated); `txnErrors` records the proxygen
errors delivered to the owned transaction via
HQStreamTransportBase::errorOnTransaction. -/
structure StreamRec where
  id : Nat
  fromPeer : Bool
  detached : Bool
  txnErrors : List ProxygenError
deriving DecidableEq

/-- HQStreamTransportBase::errorOnTransaction: the transaction receives the
error only when the stream is not detached. -/
def errorOnTransaction (e : ProxygenError) (st : StreamRec) : StreamRec :=
  if st.detached then st else { st with txnErrors := st.txnErrors ++ [e] }

/-- The egress control streams created at session setup by
createEgressControlStreams of each VersionUtils variant. -/
def profileEgressCtrlStreams : HQVersion → List UnidirectionalStreamType
  | .H1Q_FB_V1 => []
  | .H1Q_FB_V2 => [.H1Q_CONTROL]
  | .HQ => [.CONTROL, .QPACK_ENCODER, .QPACK_DECODER]

/-- Session-level state of HQSession relevant to the drain state machine, the
stream registry and the deferred-drop latch.  `goawaysSent` records, oldest
first, the stream ids of the GOAWAY frames generated into the control stream
write buffer by GoawayUtils::sendGoaway. -/
structure Session where
  direction : TransportDirection
  version : HQVersion
  drainState : DrainState
  maxIncomingStreamId : Nat
  maxAllowedStreamId : Nat
  goawaysSent : List Nat
  streams : List StreamRec
  pendingUniStreams : List Nat
  egressCtrlStreams : List UnidirectionalStreamType
  ingressCtrlCodecs : List UnidirectionalStreamType
  dropInNextLoop : Option (HTTP3ErrorCode × ProxygenError)
  dropping : Bool
  sockGood : Bool
deriving DecidableEq

/-- Modelled from the spec: the freshly constructed session.  The member
initializers live in HQSession.h, which is not part of the sources; the
initial values follow the specification: drain state starts at NONE (drain
table of the spec), maxIncomingStreamId is "the largest incoming stream id
observed" and starts at 0 (scenario S3 of the spec: after accepting peer
streams 0 and 4 the second GOAWAY carries id 4), maxAllowedStreamId is "the
maximum stream id accepted from peer GOAWAY" and starts unrestricted at the
largest varint, and the deferred-drop slot starts empty. -/
def mkSession (d : TransportDirection) (v : HQVersion) : Session where
  direction := d
  version := v
  drainState := .NONE
  maxIncomingStreamId := 0
  maxAllowedStreamId := kEightByteLimit
  goawaysSent := []
  streams := []
  pendingUniStreams := []
  egressCtrlStreams := profileEgressCtrlStreams v
  ingressCtrlCodecs := []
  dropInNextLoop := none
  dropping := false
  sockGood := true

/-- HQSession::getGoawayStreamId (lines 585-591). -/
def getGoawayStreamId (s : Session) : Nat :=
  if s.drainState = .NONE ∨ s.drainState = .PENDING then kEightByteLimit
  else s.maxIncomingStreamId

/-- HQSession::GoawayUtils::sendGoaway (lines 529-583).  `genOk` is false when
frame generation returns 0 bytes, the stream write offset cannot be obtained,
or registering the delivery callback fails; in each of those cases the state
shortcuts to DONE. -/
def goawaySendGoaway (genOk : Bool) (s : Session) : Session :=
  if s.direction = .UPSTREAM then s
  else if s.drainState = .DONE then s
  else if genOk = false then { s with drainState := .DONE }
  else
    let s1 := { s with goawaysSent := s.goawaysSent ++ [getGoawayStreamId s] }
    if s1.drainState = .PENDING then { s1 with drainState := .FIRST_GOAWAY }
    else { s1 with drainState := .SECOND_GOAWAY }

/-- versionUtils_->sendGoaway dispatch: H1QFBV1VersionUtils::sendGoaway only
generates Connection: close headers on the request stream codecs (lines
524-527) and leaves the session state unchanged; the framed profiles use
GoawayUtils::sendGoaway. -/
def versionSendGoaway (genOk : Bool) (s : Session) : Session :=
  if s.version = .H1Q_FB_V1 then s else goawaySendGoaway genOk s

/-- HQSession::drainImpl (lines 511-522), also the body of
notifyPendingShutdown. -/
def drainImpl (genOk : Bool) (s : Session) : Session :=
  if s.drainState ≠ .NONE then s
  else versionSendGoaway genOk { s with drainState := .PENDING }

/-- HQSession::checkForShutdown (lines 710-745), restricted to its effect on
the drain state: an upstream session with a control stream fast-tracks
PENDING to DONE.  Self-destruction when DONE with zero streams is not
modelled. -/
def checkForShutdown (s : Session) : Session :=
  if s.version ≠ .H1Q_FB_V1 ∧ s.direction = .UPSTREAM ∧
      s.drainState = .PENDING then
    { s with drainState := .DONE }
  else s

/-- HQSession::closeWhenIdle (lines 631-639). -/
def closeWhenIdle (genOk : Bool) (s : Session) : Session :=
  let s1 := drainImpl genOk s
  let s2 :=
    if s1.version = .H1Q_FB_V1 then { s1 with drainState := .DONE } else s1
  checkForShutdown { s2 with pendingUniStreams := [] }

/-- HQSession::onGoawayAck (lines 2132-2140), invoked from
HQControlStream::onDeliveryAck when a GOAWAY delivery is acknowledged. -/
def onGoawayAck (genOk : Bool) (s : Session) : Session :=
  if s.drainState = .FIRST_GOAWAY then versionSendGoaway genOk s
  else if s.drainState = .SECOND_GOAWAY then { s with drainState := .DONE }
  else s

/-- HQControlStream::onCanceled (lines 2122-2130): a canceled GOAWAY delivery
callback accelerates draining. -/
def goawayDeliveryCanceled (s : Session) : Session :=
  { s with drainState := .DONE }

/-- HQSession::H1QFBV1VersionUtils::headersComplete (lines 1474-1489): the
unframed profile starts or finishes draining on receipt of a
Connection: close header.  Only the H1Q_FB_V1 profile installs this handler;
for other profiles headersComplete does not touch the drain state. -/
def v1HeadersComplete (hasConnClose : Bool) (s : Session) : Session :=
  if s.version ≠ .H1Q_FB_V1 then s
  else if s.drainState = .DONE then s
  else if hasConnClose then
    if s.drainState = .CLOSE_SENT then { s with drainState := .DONE }
    else
      let s1 := if s.drainState = .NONE then drainImpl true s else s
      { s1 with drainState := .CLOSE_RECEIVED }
  else s

/-- HQSession::H1QFBV1VersionUtils::checkSendingGoaway (lines 1500-1513),
run when an egress message is serialized on the unframed profile. -/
def v1CheckSendingGoaway (wantsKeepalive : Bool) (s : Session) : Session :=
  if s.version ≠ .H1Q_FB_V1 then s
  else
    let s1 :=
      if s.drainState = .NONE ∧ ¬wantsKeepalive then drainImpl true s else s
    if s1.drainState = .CLOSE_RECEIVED then { s1 with drainState := .DONE }
    else if s1.drainState = .PENDING then { s1 with drainState := .CLOSE_SENT }
    else s1

/-- The per-stream action of HQSession::onGoaway (lines 1571-1581): a
non-detached stream whose id exceeds the updated maxAllowedStreamId is failed
with kErrorStreamUnacknowledged. -/
def goawayFailStream (bound : Nat) (st : StreamRec) : StreamRec :=
  if ¬st.detached ∧ st.id > bound then
    errorOnTransaction .kErrorStreamUnacknowledged st
  else st

/-- HQSession::onGoaway (lines 1558-1589).  The source requires (DCHECK) an
upstream session with a framed profile; the codec that delivers GOAWAY frames
only exists there, so the function is modelled as a no-op otherwise. -/
def onGoaway (lastGoodStreamID : Nat) (genOk : Bool) (s : Session) : Session :=
  if s.direction ≠ .UPSTREAM ∨ s.version = .H1Q_FB_V1 then s
  else
    let s1 :=
      { s with maxAllowedStreamId := min s.maxAllowedStreamId lastGoodStreamID }
    let s2 := drainImpl genOk s1
    let s3 : Session :=
      { s2 with
        streams := s2.streams.map (goawayFailStream s2.maxAllowedStreamId) }
    let s4 : Session :=
      if s3.drainState = .NONE ∨ s3.drainState = .PENDING then
        { s3 with drainState := .FIRST_GOAWAY }
      else if s3.drainState = .FIRST_GOAWAY then
        { s3 with drainState := .DONE }
      else s3
    checkForShutdown s4

/-- HQSession::dropConnectionSync (lines 658-708), restricted to its effect on
the modelled state: guard against re-entry via `dropping`, close the socket,
error all streams, and set the drain state to DONE. -/
def dropConnectionSync (pgError : ProxygenError) (s : Session) : Session :=
  if s.dropping then s
  else
    { s with
      dropping := true
      sockGood := false
      streams := s.streams.map (errorOnTransaction pgError)
      drainState := .DONE }

/-- HQSession::dropConnectionAsync (lines 647-656): a single-slot latch; a
second request while one is pending is ignored. -/
def dropConnectionAsync (err : HTTP3ErrorCode) (pgError : ProxygenError)
    (s : Session) : Session :=
  if s.dropInNextLoop = none then
    { s with dropInNextLoop := some (err, pgError) }
  else s

/-- HQSession::createIngressControlStream (lines 255-282): promoting a peer
unidirectional stream to a control stream of type `t`.  If there is no egress
control stream of that type the source LOG(FATAL)s (modelled as no change);
if an ingress codec of that type is already installed the session schedules
an asynchronous drop with HTTP_WRONG_STREAM_COUNT; otherwise the codec is
installed. -/
def createIngressControlStream (t : UnidirectionalStreamType)
    (s : Session) : Session :=
  if t ∉ s.egressCtrlStreams then s
  else if t ∈ s.ingressCtrlCodecs then
    dropConnectionAsync .HTTP_WRONG_STREAM_COUNT .kErrorConnection s
  else { s with ingressCtrlCodecs := s.ingressCtrlCodecs ++ [t] }

/-- HQSession::H1QFBV1VersionUtils::checkNewStream (lines 140-150). -/
def v1CheckNewStream (id : Nat) : Bool :=
  ¬(isUnidirectionalStream id ∨ isServerStream id)

/-- HQSession::GoawayUtils::checkNewStream (lines 152-182). -/
def goawayCheckNewStream (s : Session) (id : Nat) : Bool :=
  if isBidirectionalStream id ∧ isServerStream id then false
  else if s.drainState ≠ .NONE ∧
      ((s.direction = .UPSTREAM ∧ id > s.maxAllowedStreamId) ∨
        (s.direction = .DOWNSTREAM ∧ isBidirectionalStream id ∧
          id > s.maxIncomingStreamId)) then false
  else true

/-- versionUtils_->checkNewStream dispatch. -/
def checkNewStream (s : Session) (id : Nat) : Bool :=
  if s.version = .H1Q_FB_V1 then v1CheckNewStream id
  else goawayCheckNewStream s id

/-- HQSession::onNewBidirectionalStream (lines 85-100): validate the stream,
create a stream transport for it and raise maxIncomingStreamId. -/
def onNewBidirectionalStream (id : Nat) (s : Session) : Session :=
  if ¬checkNewStream s id then s
  else
    { s with
      streams := s.streams ++ [⟨id, true, false, []⟩]
      maxIncomingStreamId := max s.maxIncomingStreamId id }

/-- HQSession::onNewUnidirectionalStream (lines 102-123): validate the stream
and hand it to the unidirectional read dispatcher; maxIncomingStreamId is not
touched. -/
def onNewUnidirectionalStream (id : Nat) (s : Session) : Session :=
  if ¬checkNewStream s id then s
  else { s with pendingUniStreams := s.pendingUniStreams ++ [id] }

/-- HQSession::newTransaction (lines 2313-2351) together with
createStreamTransport: returns the id of the created local stream, or none
when the session is draining, the socket is bad, or the id already exists.
`newId` is the stream id handed out by sock_->createBidirectionalStream. -/
def newTransaction (newId : Nat) (s : Session) : Option Nat × Session :=
  if s.drainState = .CLOSE_SENT ∨ s.drainState = .FIRST_GOAWAY ∨
      s.drainState = .DONE then (none, s)
  else if ¬s.sockGood then (none, s)
  else if s.streams.any (fun st => st.id = newId) then (none, s)
  else (some newId, { s with streams := s.streams ++ [⟨newId, false, false, []⟩] })

/-- HQSession::runLoopCallback (lines 887-948), restricted to the deferred
drop and the shutdown check of its scope guard: a latched drop request is
executed synchronously; the latch itself is not cleared by the source. -/
def runLoopCallback (s : Session) : Session :=
  match s.dropInNextLoop with
  | some (_, pgError) => checkForShutdown (dropConnectionSync pgError s)
  | none => checkForShutdown s

/-- The externally triggered operations on the session state modelled above.
Boolean parameters stand for environment outcomes (frame generation success,
header contents, keepalive flag). -/
inductive Op
  | drainOp (genOk : Bool)
  | closeWhenIdleOp (genOk : Bool)
  | onGoawayAckOp (genOk : Bool)
  | goawayCanceledOp
  | headersCompleteOp (hasConnClose : Bool)
  | checkSendingGoawayOp (wantsKeepalive : Bool)
  | onGoawayOp (lastGoodStreamID : Nat) (genOk : Bool)
  | dropSyncOp (pgError : ProxygenError)
  | checkForShutdownOp
  | onNewBidiOp (id : Nat)
  | onNewUniOp (id : Nat)
  | newTransactionOp (newId : Nat)
  | dropAsyncOp (err : HTTP3ErrorCode) (pgError : ProxygenError)
  | createIngressCtrlOp (t : UnidirectionalStreamType)
  | runLoopCallbackOp
deriving DecidableEq

/-- One step of the session: dispatch an operation to its implementation. -/
def applyOp : Op → Session → Session
  | .drainOp g => drainImpl g
  | .closeWhenIdleOp g => closeWhenIdle g
  | .onGoawayAckOp g => onGoawayAck g
  | .goawayCanceledOp => goawayDeliveryCanceled
  | .headersCompleteOp c => v1HeadersComplete c
  | .checkSendingGoawayOp k => v1CheckSendingGoaway k
  | .onGoawayOp m g => onGoaway m g
  | .dropSyncOp e => dropConnectionSync e
  | .checkForShutdownOp => checkForShutdown
  | .onNewBidiOp id => onNewBidirectionalStream id
  | .onNewUniOp id => onNewUnidirectionalStream id
  | .newTransactionOp id => fun s => (newTransaction id s).2
  | .dropAsyncOp e p => dropConnectionAsync e p
  | .createIngressCtrlOp t => createIngressControlStream t
  | .runLoopCallbackOp => runLoopCallback

/-- Sessions reachable from a fresh session by the modelled operations. -/
inductive Reachable : Session → Prop
  | init (d : TransportDirection) (v : HQVersion) : Reachable (mkSession d v)
  | next (op : Op) {s : Session} : Reachable s → Reachable (applyOp op s)

/-! Reset handling: HQStreamTransportBase::onResetStream (lines 2986-3025). -/

/-- Outcome of onResetStream: the reset code sent back on the wire and the
proxygen error delivered to the transaction. -/
structure ResetOutcome where
  replyError : HTTP3ErrorCode
  txnError : ProxygenError
deriving DecidableEq

/-- HQStreamTransportBase::onResetStream (lines 2986-3025): map a peer reset
carrying `errorCode` to the reply reset code and the transaction error.
`ingressStarted` is txn_.isIngressStarted(). -/
def onResetStream (direction : TransportDirection) (ingressStarted : Bool)
    (errorCode : HTTP3ErrorCode) : ResetOutcome :=
  let replyError : HTTP3ErrorCode :=
    if direction = .UPSTREAM then .HTTP_REQUEST_CANCELLED
    else if ¬ingressStarted then .HTTP_REQUEST_REJECTED
    else .HTTP_NO_ERROR
  let pgError : ProxygenError :=
    if errorCode = .HTTP_REQUEST_REJECTED then .kErrorStreamUnacknowledged
    else .kErrorStreamAbort
  let pgError : ProxygenError :=
    if errorCode = .GIVEUP_ZERO_RTT then .kErrorEarlyDataFailed else pgError
  ⟨replyError, pgError⟩

/-- Transcription of the claim text for the reply code: upstream session maps
to HTTP_REQUEST_CANCELLED; downstream with no ingress received maps to
HTTP_REQUEST_REJECTED; downstream after ingress maps to HTTP_NO_ERROR. -/
def specReplyError (direction : TransportDirection)
    (ingressStarted : Bool) : HTTP3ErrorCode :=
  match direction, ingressStarted with
  | .UPSTREAM, _ => .HTTP_REQUEST_CANCELLED
  | .DOWNSTREAM, false => .HTTP_REQUEST_REJECTED
  | .DOWNSTREAM, true => .HTTP_NO_ERROR

/-- Transcription of the claim text for the transaction error: the error is
StreamUnacknowledged exactly when the received code is HTTP_REQUEST_REJECTED,
EarlyDataFailed when it is GIVEUP_ZERO_RTT, and StreamAbort otherwise. -/
def specTxnError (errorCode : HTTP3ErrorCode) : ProxygenError :=
  if errorCode = .HTTP_REQUEST_REJECTED then .kErrorStreamUnacknowledged
  else if errorCode = .GIVEUP_ZERO_RTT then .kErrorEarlyDataFailed
  else .kErrorStreamAbort

/-! Egress byte accounting: HQSession::writeBase (lines 1916-1951) and
HQSession::handleWrite (lines 1953-1986). -/

/-- The egress-side state of one request stream that the write path touches.
The fields `totalPassedToWriteChain` and `totalHandedBack` are
instrumentation: they record the cumulative bytes handed to
sock_->writeChain and the cumulative bytes the transport returned unwritten,
so that the accounting claims can be stated. -/
structure EgressAcct where
  writeBufLen : Nat
  bytesWritten : Nat
  pendingEOM : Bool
  pendingByteEvents : Nat
  totalPassedToWriteChain : Nat
  totalHandedBack : Nat
deriving DecidableEq

/-- One call into the transport from the write path.  `dataLen` is the length
of the buffer split off the stream write buffer and passed to writeChain
(equal to tryToSend in the source); `outcome` is none when writeChain fails
and `some k` when the transport accepts the write but hands `k` bytes back;
`sendEof` is the FIN flag. -/
structure WriteEvent where
  dataLen : Nat
  outcome : Option Nat
  sendEof : Bool
deriving DecidableEq

/-- HQSession::writeBase (lines 1916-1951): pass the data to
sock_->writeChain; on success, any bytes the transport hands back are
prepended to the stream write buffer and the byte count actually taken is
returned. -/
def writeBase (st : EgressAcct) (e : WriteEvent) :
    Option (Nat × EgressAcct) :=
  let st := { st with
    totalPassedToWriteChain := st.totalPassedToWriteChain + e.dataLen }
  match e.outcome with
  | none => none
  | some k =>
      some (e.dataLen - k,
        { st with
          writeBufLen := st.writeBufLen + k
          totalHandedBack := st.totalHandedBack + k })

/-- HQSession::handleWrite (lines 1953-1986): on a write error the stream is
errored and 0 is returned; otherwise, when a FIN was fully written the
pending byte events are incremented and pendingEOM is cleared, and
bytesWritten_ is increased by the bytes the transport took. -/
def handleWrite (st : EgressAcct) (e : WriteEvent) : Nat × EgressAcct :=
  match writeBase st e with
  | none =>
      (0, { st with
        totalPassedToWriteChain := st.totalPassedToWriteChain + e.dataLen })
  | some (sent, st1) =>
      let st2 :=
        if sent = e.dataLen ∧ e.sendEof then
          { st1 with
            pendingByteEvents := st1.pendingByteEvents + 1
            pendingEOM := false }
        else st1
      (sent, { st2 with bytesWritten := st2.bytesWritten + sent })

/-- A sequence of write events applied to a stream. -/
def runWrites (st : EgressAcct) (es : List WriteEvent) : EgressAcct :=
  es.foldl (fun st e => (handleWrite st e).2) st

/-- The bytes a write event actually leaves with the transport: zero on error,
the passed bytes minus the handed-back bytes otherwise. -/
def acceptedBytes (e : WriteEvent) : Nat :=
  match e.outcome with
  | none => 0
  | some k => e.dataLen - k

/-- A fresh stream egress accounting state. -/
def mkEgressAcct : EgressAcct :=
  ⟨0, 0, false, 0, 0, 0⟩

/-! Request stream egress: HQSession::requestStreamWriteImpl (lines
1988-2083) with hasPendingBody / wantsOnWriteReady (lines 487-509). -/

/-- The stream-transport state read and written by requestStreamWriteImpl. -/
structure ReqStream where
  writeBufLen : Nat
  pendingEOM : Bool
  enqueued : Bool
  txnHasPendingBody : Bool
  txnEOMQueued : Bool
deriving DecidableEq

/-- HQStreamTransportBase::hasPendingBody (lines 487-490). -/
def hasPendingBody (st : ReqStream) : Bool :=
  st.writeBufLen ≠ 0 ∨ (st.enqueued ∧ st.txnHasPendingBody)

/-- HQStreamTransportBase::wantsOnWriteReady (lines 502-509). -/
def wantsOnWriteReady (st : ReqStream) (canSend : Nat) : Bool :=
  st.enqueued ∧
    ((canSend > st.writeBufLen ∧ st.txnHasPendingBody) ∨
      (¬st.txnHasPendingBody ∧ st.txnEOMQueued))

/-- The effect of one txn_.onWriteReady call on the stream-visible state: the
transaction may append body bytes to the write buffer, queue or clear its
EOM, and may be removed from the egress queue. -/
structure OnWriteReadyEffect where
  appended : Nat
  pendingEOMAfter : Bool
  enqueuedAfter : Bool
  txnHasPendingBodyAfter : Bool
  txnEOMQueuedAfter : Bool
deriving DecidableEq

/-- Apply the effect of txn_.onWriteReady to the stream state. -/
def applyOnWriteReady (st : ReqStream) (eff : OnWriteReadyEffect) : ReqStream :=
  { writeBufLen := st.writeBufLen + eff.appended
    pendingEOM := eff.pendingEOMAfter
    enqueued := eff.enqueuedAfter
    txnHasPendingBody := eff.txnHasPendingBodyAfter
    txnEOMQueued := eff.txnEOMQueuedAfter }

/-- size_t subtraction: the difference modulo 2 ^ 64, wrapping to a huge
value when the subtrahend exceeds the minuend. -/
def subSizeT (a b : Nat) : Nat :=
  (2 ^ 64 + a % 2 ^ 64 - b % 2 ^ 64) % 2 ^ 64

/-- The observable result of one requestStreamWriteImpl invocation. -/
structure WriteImplResult where
  onWriteReadyArg : Option Nat
  handedToTransport : Nat
  finRequested : Bool
  sent : Nat
  streamAfter : ReqStream
deriving DecidableEq

/-- HQSession::requestStreamWriteImpl (lines 1988-2083).  `flowControl` is
the per-stream send window reported by the transport (none on error);
`maxEgress` is the remaining connection byte budget; `eff` is the effect of
the transaction onWriteReady callback, applied only if the callback is
invoked; `writeOutcome` parameterizes sock_->writeChain as in writeBase.
The maxBodySend computation at line 2020 is an unsigned size_t subtraction:
it wraps modulo 2 ^ 64 when the buffered bytes exceed canSend, a state the
EOM-only branch of wantsOnWriteReady can reach. -/
def requestStreamWriteImpl (st : ReqStream) (flowControl : Option Nat)
    (maxEgress : Nat) (eff : OnWriteReadyEffect) (writeOutcome : Option Nat) :
    WriteImplResult :=
  match flowControl with
  | none => ⟨none, 0, false, 0, st⟩
  | some streamSendWindow =>
    let canSend := min streamSendWindow maxEgress
    let wants := wantsOnWriteReady st canSend
    let maxBodySend := subSizeT canSend st.writeBufLen
    let st1 := if wants then applyOnWriteReady st eff else st
    if wants ∧ st1.writeBufLen = 0 ∧ st1.pendingEOM = false then
      ⟨some maxBodySend, 0, false, 0, st1⟩
    else
      let sendLen := min canSend st1.writeBufLen
      let st2 : ReqStream := { st1 with writeBufLen := st1.writeBufLen - sendLen }
      let sendEof : Bool := st2.pendingEOM ∧ ¬hasPendingBody st2
      let sent :=
        match writeOutcome with
        | none => 0
        | some k => sendLen - k
      let st3 : ReqStream :=
        match writeOutcome with
        | none => st2
        | some k =>
            let st3 := { st2 with writeBufLen := st2.writeBufLen + k }
            if sent = sendLen ∧ sendEof then { st3 with pendingEOM := false }
            else st3
      ⟨if wants then some maxBodySend else none, sendLen, sendEof, sent, st3⟩

/-! Version selection: HQSession::getAndCheckApplicationProtocol (lines
333-359) and setVersionUtils (lines 361-377). -/

/-- Result of session setup version selection: either a version profile is
installed, or setup fails with a connection error. -/
inductive SetupResult
  | ok (v : HQVersion)
  | failed (reason : String)
deriving DecidableEq

/-- The error carried by onConnectionError on an unsupported ALPN:
quic::LocalErrorCode::CONNECT_FAILED. -/
def CONNECT_FAILED : String := "CONNECT_FAILED"

/-- HQSession::getAndCheckApplicationProtocol (lines 333-359) combined with
setVersionUtils (lines 361-377): map the negotiated ALPN string to the
version profile, or fail session setup with CONNECT_FAILED. -/
def getAndCheckApplicationProtocol (alpn : Option String) : SetupResult :=
  match alpn with
  | none => .failed CONNECT_FAILED
  | some a =>
      if a = "h1q-fb" ∨ a = "h1q" ∨ a = "hq-27" then .ok .H1Q_FB_V1
      else if a = "h1q-fb-v2" then .ok .H1Q_FB_V2
      else if a = "h3-fb-05" ∨ a = "h3-27" then .ok .HQ
      else .failed CONNECT_FAILED

/-! Partial reliability: HQStreamTransportBase::trimPendingEgressBody (lines
3174-3192) and skipBodyTo (lines 3194-3223). -/

/-- The stream state touched by the partial-reliability egress trim.
`committedBytes` is the value of streamEgressCommittedByteOffset(), the
byte offset already committed to the wire (the accessor itself lives in the
session header). -/
structure PRStream where
  committedBytes : Nat
  writeBufLen : Nat
  bytesSkipped : Nat
deriving DecidableEq

/-- HQStreamTransportBase::trimPendingEgressBody (lines 3174-3192): returns
the number of bytes the buffer start is moved by and the updated stream.  A
trim offset below the committed bytes is ignored and yields 0. -/
def trimPendingEgressBody (st : PRStream) (trimOffset : Nat) :
    Nat × PRStream :=
  if st.committedBytes > trimOffset then (0, st)
  else
    let trimBytes := trimOffset - st.committedBytes
    (trimBytes,
      { st with writeBufLen := st.writeBufLen - min trimBytes st.writeBufLen })

/-- HQStreamTransportBase::skipBodyTo (lines 3194-3223).  `prEnabled` is
isPartialReliabilityEnabled(); `mappedStreamOffset` is the result of the
codec mapping onEgressBodySkip (none on mapping error); `sendOk` is whether
sock_->sendDataExpired succeeds.  On the success path the trim result is
added to bytesSkipped_. -/
def skipBodyTo (st : PRStream) (prEnabled : Bool)
    (mappedStreamOffset : Option Nat) (sendOk : Bool) :
    Option (Nat × PRStream) :=
  if ¬prEnabled then none
  else
    match mappedStreamOffset with
    | none => none
    | some streamOffset =>
        let r := trimPendingEgressBody st streamOffset
        let st1 := { r.2 with bytesSkipped := r.2.bytesSkipped + r.1 }
        if sendOk then some (streamOffset, st1) else none

/-! Helper lemmas about the drain state machine. -/

theorem drainRank_le_six (d : DrainState) : drainRank d ≤ 6 := by
  cases d <;> simp [drainRank]

theorem mono_goawaySendGoaway (g : Bool) (s : Session) :
    drainRank s.drainState ≤ drainRank (goawaySendGoaway g s).drainState := by
  obtain ⟨dir, ver, ds, mi, ma, gs, strs, pu, ec, ic, dl, dr, sg⟩ := s
  cases dir <;> cases ds <;> cases g <;>
    simp [goawaySendGoaway, getGoawayStreamId, drainRank]

theorem mono_versionSendGoaway (g : Bool) (s : Session) :
    drainRank s.drainState ≤ drainRank (versionSendGoaway g s).drainState := by
  unfold versionSendGoaway
  split
  · exact Nat.le_refl _
  · exact mono_goawaySendGoaway g s

theorem mono_drainImpl (g : Bool) (s : Session) :
    drainRank s.drainState ≤ drainRank (drainImpl g s).drainState := by
  unfold drainImpl
  split
  · exact Nat.le_refl _
  · rename_i h
    simp only [ne_eq, Decidable.not_not] at h
    rw [h]
    exact Nat.zero_le _

theorem mono_checkForShutdown (s : Session) :
    drainRank s.drainState ≤ drainRank (checkForShutdown s).drainState := by
  unfold checkForShutdown
  split
  · rename_i h
    rw [h.2.2]
    exact Nat.le_of_lt_succ (by simp [drainRank])
  · exact Nat.le_refl _

theorem mono_closeWhenIdle (g : Bool) (s : Session) :
    drainRank s.drainState ≤ drainRank (closeWhenIdle g s).drainState := by
  unfold closeWhenIdle
  refine Nat.le_trans (mono_drainImpl g s) ?_
  refine Nat.le_trans ?_ (mono_checkForShutdown _)
  split
  · exact drainRank_le_six _
  · exact Nat.le_refl _

theorem mono_onGoawayAck (g : Bool) (s : Session) :
    drainRank s.drainState ≤ drainRank (onGoawayAck g s).drainState := by
  unfold onGoawayAck
  split
  · exact mono_versionSendGoaway g s
  · split
    · exact drainRank_le_six _
    · exact Nat.le_refl _

theorem mono_goawayDeliveryCanceled (s : Session) :
    drainRank s.drainState ≤
      drainRank (goawayDeliveryCanceled s).drainState :=
  drainRank_le_six _

/-- The session invariant needed for drain-state monotonicity and for the
GOAWAY claims: the unframed profile never reaches the GOAWAY states, framed
profiles never reach the Connection,close states, and an upstream session
never sends a second GOAWAY. -/
def SessionInv (s : Session) : Prop :=
  (s.version = .H1Q_FB_V1 →
    s.drainState ≠ .FIRST_GOAWAY ∧ s.drainState ≠ .SECOND_GOAWAY) ∧
  (s.version ≠ .H1Q_FB_V1 →
    s.drainState ≠ .CLOSE_SENT ∧ s.drainState ≠ .CLOSE_RECEIVED) ∧
  (s.direction = .UPSTREAM → s.drainState ≠ .SECOND_GOAWAY)

theorem mono_v1HeadersComplete (c : Bool) (s : Session)
    (hinv : SessionInv s) :
    drainRank s.drainState ≤ drainRank (v1HeadersComplete c s).drainState := by
  obtain ⟨h1, h2, h3⟩ := hinv
  unfold v1HeadersComplete
  split
  · exact Nat.le_refl _
  · rename_i hv
    simp only [ne_eq, Decidable.not_not] at hv
    obtain ⟨hf, hs⟩ := h1 hv
    split
    · exact Nat.le_refl _
    · split
      · split
        · rename_i h
          rw [h]
          simp [drainRank]
        · rename_i hdone hcs
          cases hds : s.drainState <;>
            simp_all [drainImpl, versionSendGoaway, drainRank]
      · exact Nat.le_refl _

theorem mono_v1CheckSendingGoaway (k : Bool) (s : Session) :
    drainRank s.drainState ≤
      drainRank (v1CheckSendingGoaway k s).drainState := by
  unfold v1CheckSendingGoaway
  split
  · exact Nat.le_refl _
  · rename_i hv
    simp only [ne_eq, Decidable.not_not] at hv
    cases hds : s.drainState <;> cases k <;>
      simp_all [drainImpl, versionSendGoaway, drainRank]

theorem mono_onGoaway (m : Nat) (g : Bool) (s : Session) :
    drainRank s.drainState ≤ drainRank (onGoaway m g s).drainState := by
  obtain ⟨dir, ver, ds, mi, ma, gs, strs, pu, ec, ic, dl, dr, sg⟩ := s
  cases dir <;> cases ver <;> cases ds <;> cases g <;>
    simp [onGoaway, drainImpl, versionSendGoaway, goawaySendGoaway,
      getGoawayStreamId, checkForShutdown, drainRank]

theorem mono_dropConnectionSync (e : ProxygenError) (s : Session) :
    drainRank s.drainState ≤
      drainRank (dropConnectionSync e s).drainState := by
  unfold dropConnectionSync
  split
  · exact Nat.le_refl _
  · exact drainRank_le_six _

theorem drainState_onNewBidirectionalStream (id : Nat) (s : Session) :
    (onNewBidirectionalStream id s).drainState = s.drainState := by
  unfold onNewBidirectionalStream
  split <;> rfl

theorem drainState_onNewUnidirectionalStream (id : Nat) (s : Session) :
    (onNewUnidirectionalStream id s).drainState = s.drainState := by
  unfold onNewUnidirectionalStream
  split <;> rfl

theorem drainState_newTransaction (id : Nat) (s : Session) :
    (newTransaction id s).2.drainState = s.drainState := by
  unfold newTransaction
  split
  · rfl
  · split
    · rfl
    · split <;> rfl

theorem drainState_dropConnectionAsync (e : HTTP3ErrorCode)
    (p : ProxygenError) (s : Session) :
    (dropConnectionAsync e p s).drainState = s.drainState := by
  unfold dropConnectionAsync
  split <;> rfl

theorem drainState_createIngressControlStream
    (t : UnidirectionalStreamType) (s : Session) :
    (createIngressControlStream t s).drainState = s.drainState := by
  unfold createIngressControlStream
  split
  · rfl
  · split
    · exact drainState_dropConnectionAsync _ _ s
    · rfl

theorem mono_runLoopCallback (s : Session) :
    drainRank s.drainState ≤ drainRank (runLoopCallback s).drainState := by
  unfold runLoopCallback
  split
  · exact Nat.le_trans (mono_dropConnectionSync _ s) (mono_checkForShutdown _)
  · exact mono_checkForShutdown s

theorem mono_applyOp (op : Op) (s : Session) (hinv : SessionInv s) :
    drainRank s.drainState ≤ drainRank (applyOp op s).drainState := by
  cases op with
  | drainOp g => exact mono_drainImpl g s
  | closeWhenIdleOp g => exact mono_closeWhenIdle g s
  | onGoawayAckOp g => exact mono_onGoawayAck g s
  | goawayCanceledOp => exact mono_goawayDeliveryCanceled s
  | headersCompleteOp c => exact mono_v1HeadersComplete c s hinv
  | checkSendingGoawayOp k => exact mono_v1CheckSendingGoaway k s
  | onGoawayOp m g => exact mono_onGoaway m g s
  | dropSyncOp e => exact mono_dropConnectionSync e s
  | checkForShutdownOp => exact mono_checkForShutdown s
  | onNewBidiOp id =>
      show drainRank s.drainState ≤
        drainRank (onNewBidirectionalStream id s).drainState
      rw [drainState_onNewBidirectionalStream]
  | onNewUniOp id =>
      show drainRank s.drainState ≤
        drainRank (onNewUnidirectionalStream id s).drainState
      rw [drainState_onNewUnidirectionalStream]
  | newTransactionOp id =>
      show drainRank s.drainState ≤
        drainRank (newTransaction id s).2.drainState
      rw [drainState_newTransaction]
  | dropAsyncOp e p =>
      show drainRank s.drainState ≤
        drainRank (dropConnectionAsync e p s).drainState
      rw [drainState_dropConnectionAsync]
  | createIngressCtrlOp t =>
      show drainRank s.drainState ≤
        drainRank (createIngressControlStream t s).drainState
      rw [drainState_createIngressControlStream]
  | runLoopCallbackOp => exact mono_runLoopCallback s

/-! Preservation of the session invariant. -/

theorem inv_goawaySendGoaway (g : Bool) (s : Session)
    (hv : s.version ≠ .H1Q_FB_V1) (hinv : SessionInv s) :
    SessionInv (goawaySendGoaway g s) := by
  obtain ⟨dir, ver, ds, mi, ma, gs, strs, pu, ec, ic, dl, dr, sg⟩ := s
  cases dir <;> cases ver <;> cases ds <;> cases g <;>
    simp_all [SessionInv, goawaySendGoaway, getGoawayStreamId]

theorem inv_versionSendGoaway (g : Bool) (s : Session)
    (hinv : SessionInv s) : SessionInv (versionSendGoaway g s) := by
  unfold versionSendGoaway
  split
  · exact hinv
  · exact inv_goawaySendGoaway g s (by assumption) hinv

theorem inv_drainImpl (g : Bool) (s : Session) (hinv : SessionInv s) :
    SessionInv (drainImpl g s) := by
  unfold drainImpl
  split
  · exact hinv
  · refine inv_versionSendGoaway g _ ?_
    simp [SessionInv]

theorem inv_checkForShutdown (s : Session) (hinv : SessionInv s) :
    SessionInv (checkForShutdown s) := by
  unfold checkForShutdown
  split
  · simp [SessionInv]
  · exact hinv

theorem inv_closeWhenIdle (g : Bool) (s : Session) (hinv : SessionInv s) :
    SessionInv (closeWhenIdle g s) := by
  unfold closeWhenIdle
  apply inv_checkForShutdown
  split
  · simp [SessionInv]
  · exact inv_drainImpl g s hinv

theorem inv_onGoawayAck (g : Bool) (s : Session) (hinv : SessionInv s) :
    SessionInv (onGoawayAck g s) := by
  unfold onGoawayAck
  split
  · exact inv_versionSendGoaway g s hinv
  · split
    · simp [SessionInv]
    · exact hinv

theorem inv_goawayDeliveryCanceled (s : Session) :
    SessionInv (goawayDeliveryCanceled s) := by
  simp [goawayDeliveryCanceled, SessionInv]

theorem inv_v1HeadersComplete (c : Bool) (s : Session)
    (hinv : SessionInv s) : SessionInv (v1HeadersComplete c s) := by
  obtain ⟨dir, ver, ds, mi, ma, gs, strs, pu, ec, ic, dl, dr, sg⟩ := s
  cases ver <;> cases ds <;> cases c <;>
    simp_all [SessionInv, v1HeadersComplete, drainImpl, versionSendGoaway]

theorem inv_v1CheckSendingGoaway (k : Bool) (s : Session)
    (hinv : SessionInv s) : SessionInv (v1CheckSendingGoaway k s) := by
  obtain ⟨dir, ver, ds, mi, ma, gs, strs, pu, ec, ic, dl, dr, sg⟩ := s
  cases ver <;> cases ds <;> cases k <;>
    simp_all [SessionInv, v1CheckSendingGoaway, drainImpl, versionSendGoaway]

theorem inv_onGoaway (m : Nat) (g : Bool) (s : Session)
    (hinv : SessionInv s) : SessionInv (onGoaway m g s) := by
  obtain ⟨dir, ver, ds, mi, ma, gs, strs, pu, ec, ic, dl, dr, sg⟩ := s
  cases dir <;> cases ver <;> cases ds <;> cases g <;>
    simp_all [SessionInv, onGoaway, drainImpl, versionSendGoaway,
      goawaySendGoaway, getGoawayStreamId, checkForShutdown]

theorem inv_dropConnectionSync (e : ProxygenError) (s : Session)
    (hinv : SessionInv s) : SessionInv (dropConnectionSync e s) := by
  unfold dropConnectionSync
  split
  · exact hinv
  · simp [SessionInv]

theorem inv_onNewBidirectionalStream (id : Nat) (s : Session)
    (hinv : SessionInv s) : SessionInv (onNewBidirectionalStream id s) := by
  unfold onNewBidirectionalStream
  split
  · exact hinv
  · exact hinv

theorem inv_onNewUnidirectionalStream (id : Nat) (s : Session)
    (hinv : SessionInv s) : SessionInv (onNewUnidirectionalStream id s) := by
  unfold onNewUnidirectionalStream
  split
  · exact hinv
  · exact hinv

theorem inv_newTransaction (id : Nat) (s : Session)
    (hinv : SessionInv s) : SessionInv (newTransaction id s).2 := by
  unfold newTransaction
  split
  · exact hinv
  · split
    · exact hinv
    · split
      · exact hinv
      · exact hinv

theorem inv_dropConnectionAsync (e : HTTP3ErrorCode) (p : ProxygenError)
    (s : Session) (hinv : SessionInv s) :
    SessionInv (dropConnectionAsync e p s) := by
  unfold dropConnectionAsync
  split
  · exact hinv
  · exact hinv

theorem inv_createIngressControlStream (t : UnidirectionalStreamType)
    (s : Session) (hinv : SessionInv s) :
    SessionInv (createIngressControlStream t s) := by
  unfold createIngressControlStream
  split
  · exact hinv
  · split
    · exact inv_dropConnectionAsync _ _ s hinv
    · exact hinv

theorem inv_runLoopCallback (s : Session) (hinv : SessionInv s) :
    SessionInv (runLoopCallback s) := by
  unfold runLoopCallback
  split
  · exact inv_checkForShutdown _ (inv_dropConnectionSync _ s hinv)
  · exact inv_checkForShutdown s hinv

theorem inv_applyOp (op : Op) (s : Session) (hinv : SessionInv s) :
    SessionInv (applyOp op s) := by
  cases op with
  | drainOp g => exact inv_drainImpl g s hinv
  | closeWhenIdleOp g => exact inv_closeWhenIdle g s hinv
  | onGoawayAckOp g => exact inv_onGoawayAck g s hinv
  | goawayCanceledOp => exact inv_goawayDeliveryCanceled s
  | headersCompleteOp c => exact inv_v1HeadersComplete c s hinv
  | checkSendingGoawayOp k => exact inv_v1CheckSendingGoaway k s hinv
  | onGoawayOp m g => exact inv_onGoaway m g s hinv
  | dropSyncOp e => exact inv_dropConnectionSync e s hinv
  | checkForShutdownOp => exact inv_checkForShutdown s hinv
  | onNewBidiOp id => exact inv_onNewBidirectionalStream id s hinv
  | onNewUniOp id => exact inv_onNewUnidirectionalStream id s hinv
  | newTransactionOp id => exact inv_newTransaction id s hinv
  | dropAsyncOp e p => exact inv_dropConnectionAsync e p s hinv
  | createIngressCtrlOp t => exact inv_createIngressControlStream t s hinv
  | runLoopCallbackOp => exact inv_runLoopCallback s hinv

theorem sessionInv_of_reachable {s : Session} (h : Reachable s) :
    SessionInv s := by
  induction h with
  | init d v => simp [SessionInv, mkSession]
  | next op h ih => exact inv_applyOp _ _ ih

/-! Frame lemmas: fields each operation leaves unchanged. -/

/-- Fields untouched by the drain-state helpers. -/
def SameCore (s t : Session) : Prop :=
  t.version = s.version ∧ t.direction = s.direction ∧
    t.maxIncomingStreamId = s.maxIncomingStreamId ∧
    t.maxAllowedStreamId = s.maxAllowedStreamId ∧
    t.dropInNextLoop = s.dropInNextLoop

theorem sameCore_refl (s : Session) : SameCore s s :=
  ⟨rfl, rfl, rfl, rfl, rfl⟩

theorem sameCore_trans {s t u : Session} (h1 : SameCore s t)
    (h2 : SameCore t u) : SameCore s u := by
  obtain ⟨a1, b1, c1, d1, e1⟩ := h1
  obtain ⟨a2, b2, c2, d2, e2⟩ := h2
  exact ⟨a2.trans a1, b2.trans b1, c2.trans c1, d2.trans d1, e2.trans e1⟩

theorem sameCore_goawaySendGoaway (g : Bool) (s : Session) :
    SameCore s (goawaySendGoaway g s) := by
  unfold goawaySendGoaway
  split_ifs <;> try exact ⟨rfl, rfl, rfl, rfl, rfl⟩
  dsimp only
  split <;> exact ⟨rfl, rfl, rfl, rfl, rfl⟩

theorem sameCore_versionSendGoaway (g : Bool) (s : Session) :
    SameCore s (versionSendGoaway g s) := by
  unfold versionSendGoaway
  split
  · exact sameCore_refl s
  · exact sameCore_goawaySendGoaway g s

theorem sameCore_drainImpl (g : Bool) (s : Session) :
    SameCore s (drainImpl g s) := by
  unfold drainImpl
  split
  · exact sameCore_refl s
  · exact sameCore_versionSendGoaway g _

theorem sameCore_checkForShutdown (s : Session) :
    SameCore s (checkForShutdown s) := by
  unfold checkForShutdown
  split <;> exact ⟨rfl, rfl, rfl, rfl, rfl⟩

theorem sameCore_closeWhenIdle (g : Bool) (s : Session) :
    SameCore s (closeWhenIdle g s) := by
  unfold closeWhenIdle
  refine sameCore_trans (sameCore_drainImpl g s) ?_
  refine sameCore_trans ?_ (sameCore_checkForShutdown _)
  split <;> exact ⟨rfl, rfl, rfl, rfl, rfl⟩

theorem sameCore_onGoawayAck (g : Bool) (s : Session) :
    SameCore s (onGoawayAck g s) := by
  unfold onGoawayAck
  split
  · exact sameCore_versionSendGoaway g s
  · split
    · exact ⟨rfl, rfl, rfl, rfl, rfl⟩
    · exact sameCore_refl s

theorem sameCore_goawayDeliveryCanceled (s : Session) :
    SameCore s (goawayDeliveryCanceled s) :=
  ⟨rfl, rfl, rfl, rfl, rfl⟩

theorem sameCore_v1HeadersComplete (c : Bool) (s : Session) :
    SameCore s (v1HeadersComplete c s) := by
  unfold v1HeadersComplete
  split
  · exact sameCore_refl s
  · split
    · exact sameCore_refl s
    · split
      · split
        · exact ⟨rfl, rfl, rfl, rfl, rfl⟩
        · split
          · exact sameCore_trans (sameCore_drainImpl true s)
              ⟨rfl, rfl, rfl, rfl, rfl⟩
          · exact ⟨rfl, rfl, rfl, rfl, rfl⟩
      · exact sameCore_refl s

theorem sameCore_v1CheckSendingGoaway (k : Bool) (s : Session) :
    SameCore s (v1CheckSendingGoaway k s) := by
  obtain ⟨dir, ver, ds, mi, ma, gs, strs, pu, ec, ic, dl, dr, sg⟩ := s
  cases ver <;> cases ds <;> cases k <;>
    simp [SameCore, v1CheckSendingGoaway, drainImpl, versionSendGoaway,
      goawaySendGoaway, getGoawayStreamId]

theorem streams_goawaySendGoaway (g : Bool) (s : Session) :
    (goawaySendGoaway g s).streams = s.streams := by
  unfold goawaySendGoaway
  split_ifs <;> first | rfl | (dsimp only; split <;> rfl)

theorem streams_versionSendGoaway (g : Bool) (s : Session) :
    (versionSendGoaway g s).streams = s.streams := by
  unfold versionSendGoaway
  split
  · rfl
  · exact streams_goawaySendGoaway g s

theorem streams_drainImpl (g : Bool) (s : Session) :
    (drainImpl g s).streams = s.streams := by
  unfold drainImpl
  split
  · rfl
  · exact streams_versionSendGoaway g _

theorem streams_checkForShutdown (s : Session) :
    (checkForShutdown s).streams = s.streams := by
  unfold checkForShutdown
  split_ifs <;> rfl

theorem streams_closeWhenIdle (g : Bool) (s : Session) :
    (closeWhenIdle g s).streams = s.streams := by
  unfold closeWhenIdle
  rw [streams_checkForShutdown]
  split
  · exact streams_drainImpl g s
  · exact streams_drainImpl g s

theorem streams_onGoawayAck (g : Bool) (s : Session) :
    (onGoawayAck g s).streams = s.streams := by
  unfold onGoawayAck
  split
  · exact streams_versionSendGoaway g s
  · split <;> rfl

theorem streams_v1HeadersComplete (c : Bool) (s : Session) :
    (v1HeadersComplete c s).streams = s.streams := by
  obtain ⟨dir, ver, ds, mi, ma, gs, strs, pu, ec, ic, dl, dr, sg⟩ := s
  cases ver <;> cases ds <;> cases c <;>
    simp [v1HeadersComplete, drainImpl, versionSendGoaway]

theorem streams_v1CheckSendingGoaway (k : Bool) (s : Session) :
    (v1CheckSendingGoaway k s).streams = s.streams := by
  obtain ⟨dir, ver, ds, mi, ma, gs, strs, pu, ec, ic, dl, dr, sg⟩ := s
  cases ver <;> cases ds <;> cases k <;>
    simp [v1CheckSendingGoaway, drainImpl, versionSendGoaway]

theorem streams_dropConnectionAsync (e : HTTP3ErrorCode) (p : ProxygenError)
    (s : Session) : (dropConnectionAsync e p s).streams = s.streams := by
  unfold dropConnectionAsync
  split <;> rfl

theorem streams_createIngressControlStream (t : UnidirectionalStreamType)
    (s : Session) : (createIngressControlStream t s).streams = s.streams := by
  unfold createIngressControlStream
  split
  · rfl
  · split
    · exact streams_dropConnectionAsync _ _ s
    · rfl

theorem streams_onNewUnidirectionalStream (id : Nat) (s : Session) :
    (onNewUnidirectionalStream id s).streams = s.streams := by
  unfold onNewUnidirectionalStream
  split <;> rfl

/-- Every stream present after dropConnectionSync comes from a stream of the
original session with the same id and origin. -/
theorem streams_shape_dropConnectionSync (e : ProxygenError) (s : Session) :
    ∀ st ∈ (dropConnectionSync e s).streams,
      ∃ st2 ∈ s.streams, st.id = st2.id ∧ st.fromPeer = st2.fromPeer := by
  unfold dropConnectionSync
  split
  · intro st hst
    exact ⟨st, hst, rfl, rfl⟩
  · intro st hst
    rcases List.mem_map.1 hst with ⟨st2, hmem, hmap⟩
    refine ⟨st2, hmem, ?_, ?_⟩ <;> rw [← hmap] <;>
      unfold errorOnTransaction <;> split <;> rfl

theorem goawayFailStream_id (b : Nat) (st : StreamRec) :
    (goawayFailStream b st).id = st.id := by
  unfold goawayFailStream
  split
  · unfold errorOnTransaction
    split <;> rfl
  · rfl

theorem goawayFailStream_fromPeer (b : Nat) (st : StreamRec) :
    (goawayFailStream b st).fromPeer = st.fromPeer := by
  unfold goawayFailStream
  split
  · unfold errorOnTransaction
    split <;> rfl
  · rfl

/-- Every stream present after onGoaway comes from a stream of the original
session with the same id and origin. -/
theorem streams_shape_onGoaway (m : Nat) (g : Bool) (s : Session) :
    ∀ st ∈ (onGoaway m g s).streams,
      ∃ st2 ∈ s.streams, st.id = st2.id ∧ st.fromPeer = st2.fromPeer := by
  unfold onGoaway
  split
  · intro st hst
    exact ⟨st, hst, rfl, rfl⟩
  · dsimp only
    intro st hst
    rw [streams_checkForShutdown] at hst
    split at hst
    all_goals try split at hst
    all_goals
      dsimp only at hst
      rw [streams_drainImpl] at hst
      rcases List.mem_map.1 hst with ⟨st2, hmem, hmap⟩
      refine ⟨st2, hmem, ?_, ?_⟩ <;> rw [← hmap]
    case _ => exact goawayFailStream_id _ _
    case _ => exact goawayFailStream_fromPeer _ _
    case _ => exact goawayFailStream_id _ _
    case _ => exact goawayFailStream_fromPeer _ _
    case _ => exact goawayFailStream_id _ _
    case _ => exact goawayFailStream_fromPeer _ _

theorem streams_shape_runLoopCallback (s : Session) :
    ∀ st ∈ (runLoopCallback s).streams,
      ∃ st2 ∈ s.streams, st.id = st2.id ∧ st.fromPeer = st2.fromPeer := by
  unfold runLoopCallback
  split
  · intro st hst
    rw [streams_checkForShutdown] at hst
    exact streams_shape_dropConnectionSync _ s st hst
  · intro st hst
    rw [streams_checkForShutdown] at hst
    exact ⟨st, hst, rfl, rfl⟩

theorem frame_onGoaway (m : Nat) (g : Bool) (s : Session) :
    (onGoaway m g s).version = s.version ∧
    (onGoaway m g s).direction = s.direction ∧
    (onGoaway m g s).maxIncomingStreamId = s.maxIncomingStreamId ∧
    (onGoaway m g s).dropInNextLoop = s.dropInNextLoop ∧
    (onGoaway m g s).maxAllowedStreamId ≤ s.maxAllowedStreamId := by
  obtain ⟨dir, ver, ds, mi, ma, gs, strs, pu, ec, ic, dl, dr, sg⟩ := s
  cases dir <;> cases ver <;> cases ds <;> cases g <;>
    simp [onGoaway, drainImpl, versionSendGoaway, goawaySendGoaway,
      getGoawayStreamId, checkForShutdown, Nat.min_le_left, inf_le_left]

theorem frame_dropConnectionSync (e : ProxygenError) (s : Session) :
    (dropConnectionSync e s).version = s.version ∧
    (dropConnectionSync e s).direction = s.direction ∧
    (dropConnectionSync e s).maxIncomingStreamId = s.maxIncomingStreamId ∧
    (dropConnectionSync e s).maxAllowedStreamId = s.maxAllowedStreamId ∧
    (dropConnectionSync e s).dropInNextLoop = s.dropInNextLoop := by
  unfold dropConnectionSync
  split <;> exact ⟨rfl, rfl, rfl, rfl, rfl⟩

theorem frame_dropConnectionAsync (e : HTTP3ErrorCode) (p : ProxygenError)
    (s : Session) :
    (dropConnectionAsync e p s).version = s.version ∧
    (dropConnectionAsync e p s).direction = s.direction ∧
    (dropConnectionAsync e p s).maxIncomingStreamId = s.maxIncomingStreamId ∧
    (dropConnectionAsync e p s).maxAllowedStreamId = s.maxAllowedStreamId := by
  unfold dropConnectionAsync
  split <;> exact ⟨rfl, rfl, rfl, rfl⟩

theorem latch_dropConnectionAsync (e : HTTP3ErrorCode) (p : ProxygenError)
    (s : Session) (v : HTTP3ErrorCode × ProxygenError)
    (h : s.dropInNextLoop = some v) :
    (dropConnectionAsync e p s).dropInNextLoop = some v := by
  unfold dropConnectionAsync
  split
  · rename_i h2
    rw [h] at h2
    cases h2
  · exact h

theorem frame_createIngressControlStream (t : UnidirectionalStreamType)
    (s : Session) :
    (createIngressControlStream t s).version = s.version ∧
    (createIngressControlStream t s).direction = s.direction ∧
    (createIngressControlStream t s).maxIncomingStreamId =
      s.maxIncomingStreamId ∧
    (createIngressControlStream t s).maxAllowedStreamId =
      s.maxAllowedStreamId := by
  unfold createIngressControlStream
  split
  · exact ⟨rfl, rfl, rfl, rfl⟩
  · split
    · exact frame_dropConnectionAsync _ _ s
    · exact ⟨rfl, rfl, rfl, rfl⟩

theorem latch_createIngressControlStream (t : UnidirectionalStreamType)
    (s : Session) (v : HTTP3ErrorCode × ProxygenError)
    (h : s.dropInNextLoop = some v) :
    (createIngressControlStream t s).dropInNextLoop = some v := by
  unfold createIngressControlStream
  split
  · exact h
  · split
    · exact latch_dropConnectionAsync _ _ s v h
    · exact h

theorem frame_onNewBidirectionalStream (id : Nat) (s : Session) :
    (onNewBidirectionalStream id s).version = s.version ∧
    (onNewBidirectionalStream id s).direction = s.direction ∧
    (onNewBidirectionalStream id s).maxAllowedStreamId =
      s.maxAllowedStreamId ∧
    (onNewBidirectionalStream id s).dropInNextLoop = s.dropInNextLoop ∧
    s.maxIncomingStreamId ≤
      (onNewBidirectionalStream id s).maxIncomingStreamId := by
  unfold onNewBidirectionalStream
  split
  · exact ⟨rfl, rfl, rfl, rfl, Nat.le_refl _⟩
  · exact ⟨rfl, rfl, rfl, rfl, Nat.le_max_left _ _⟩

theorem frame_onNewUnidirectionalStream (id : Nat) (s : Session) :
    (onNewUnidirectionalStream id s).version = s.version ∧
    (onNewUnidirectionalStream id s).direction = s.direction ∧
    (onNewUnidirectionalStream id s).maxIncomingStreamId =
      s.maxIncomingStreamId ∧
    (onNewUnidirectionalStream id s).maxAllowedStreamId =
      s.maxAllowedStreamId ∧
    (onNewUnidirectionalStream id s).dropInNextLoop = s.dropInNextLoop := by
  unfold onNewUnidirectionalStream
  split <;> exact ⟨rfl, rfl, rfl, rfl, rfl⟩

theorem frame_newTransaction (id : Nat) (s : Session) :
    (newTransaction id s).2.version = s.version ∧
    (newTransaction id s).2.direction = s.direction ∧
    (newTransaction id s).2.maxIncomingStreamId = s.maxIncomingStreamId ∧
    (newTransaction id s).2.maxAllowedStreamId = s.maxAllowedStreamId ∧
    (newTransaction id s).2.dropInNextLoop = s.dropInNextLoop := by
  unfold newTransaction
  split
  · exact ⟨rfl, rfl, rfl, rfl, rfl⟩
  · split
    · exact ⟨rfl, rfl, rfl, rfl, rfl⟩
    · split <;> exact ⟨rfl, rfl, rfl, rfl, rfl⟩

theorem frame_runLoopCallback (s : Session) :
    (runLoopCallback s).version = s.version ∧
    (runLoopCallback s).direction = s.direction ∧
    (runLoopCallback s).maxIncomingStreamId = s.maxIncomingStreamId ∧
    (runLoopCallback s).maxAllowedStreamId = s.maxAllowedStreamId ∧
    (runLoopCallback s).dropInNextLoop = s.dropInNextLoop := by
  unfold runLoopCallback
  split
  · rename_i v p heq
    obtain ⟨a1, b1, c1, d1, e1⟩ := sameCore_checkForShutdown
      (dropConnectionSync p s)
    obtain ⟨a2, b2, c2, d2, e2⟩ := frame_dropConnectionSync p s
    exact ⟨a1.trans a2, b1.trans b2, c1.trans c2, d1.trans d2, e1.trans e2⟩
  · obtain ⟨a1, b1, c1, d1, e1⟩ := sameCore_checkForShutdown s
    exact ⟨a1, b1, c1, d1, e1⟩

/-! Preservation of static fields, the deferred-drop latch and the stream-id
bounds over arbitrary operations. -/

theorem version_applyOp (op : Op) (s : Session) :
    (applyOp op s).version = s.version := by
  cases op with
  | drainOp g => exact (sameCore_drainImpl g s).1
  | closeWhenIdleOp g => exact (sameCore_closeWhenIdle g s).1
  | onGoawayAckOp g => exact (sameCore_onGoawayAck g s).1
  | goawayCanceledOp => exact rfl
  | headersCompleteOp c => exact (sameCore_v1HeadersComplete c s).1
  | checkSendingGoawayOp k => exact (sameCore_v1CheckSendingGoaway k s).1
  | onGoawayOp m g => exact (frame_onGoaway m g s).1
  | dropSyncOp e => exact (frame_dropConnectionSync e s).1
  | checkForShutdownOp => exact (sameCore_checkForShutdown s).1
  | onNewBidiOp id => exact (frame_onNewBidirectionalStream id s).1
  | onNewUniOp id => exact (frame_onNewUnidirectionalStream id s).1
  | newTransactionOp id => exact (frame_newTransaction id s).1
  | dropAsyncOp e p => exact (frame_dropConnectionAsync e p s).1
  | createIngressCtrlOp t => exact (frame_createIngressControlStream t s).1
  | runLoopCallbackOp => exact (frame_runLoopCallback s).1

theorem direction_applyOp (op : Op) (s : Session) :
    (applyOp op s).direction = s.direction := by
  cases op with
  | drainOp g => exact (sameCore_drainImpl g s).2.1
  | closeWhenIdleOp g => exact (sameCore_closeWhenIdle g s).2.1
  | onGoawayAckOp g => exact (sameCore_onGoawayAck g s).2.1
  | goawayCanceledOp => exact rfl
  | headersCompleteOp c => exact (sameCore_v1HeadersComplete c s).2.1
  | checkSendingGoawayOp k => exact (sameCore_v1CheckSendingGoaway k s).2.1
  | onGoawayOp m g => exact (frame_onGoaway m g s).2.1
  | dropSyncOp e => exact (frame_dropConnectionSync e s).2.1
  | checkForShutdownOp => exact (sameCore_checkForShutdown s).2.1
  | onNewBidiOp id => exact (frame_onNewBidirectionalStream id s).2.1
  | onNewUniOp id => exact (frame_onNewUnidirectionalStream id s).2.1
  | newTransactionOp id => exact (frame_newTransaction id s).2.1
  | dropAsyncOp e p => exact (frame_dropConnectionAsync e p s).2.1
  | createIngressCtrlOp t =>
      exact (frame_createIngressControlStream t s).2.1
  | runLoopCallbackOp => exact (frame_runLoopCallback s).2.1

theorem latch_applyOp (op : Op) (s : Session)
    (v : HTTP3ErrorCode × ProxygenError) (h : s.dropInNextLoop = some v) :
    (applyOp op s).dropInNextLoop = some v := by
  cases op with
  | drainOp g => exact ((sameCore_drainImpl g s).2.2.2.2).trans h
  | closeWhenIdleOp g => exact ((sameCore_closeWhenIdle g s).2.2.2.2).trans h
  | onGoawayAckOp g => exact ((sameCore_onGoawayAck g s).2.2.2.2).trans h
  | goawayCanceledOp => exact h
  | headersCompleteOp c =>
      exact ((sameCore_v1HeadersComplete c s).2.2.2.2).trans h
  | checkSendingGoawayOp k =>
      exact ((sameCore_v1CheckSendingGoaway k s).2.2.2.2).trans h
  | onGoawayOp m g => exact ((frame_onGoaway m g s).2.2.2.1).trans h
  | dropSyncOp e => exact ((frame_dropConnectionSync e s).2.2.2.2).trans h
  | checkForShutdownOp =>
      exact ((sameCore_checkForShutdown s).2.2.2.2).trans h
  | onNewBidiOp id =>
      exact ((frame_onNewBidirectionalStream id s).2.2.2.1).trans h
  | onNewUniOp id =>
      exact ((frame_onNewUnidirectionalStream id s).2.2.2.2).trans h
  | newTransactionOp id => exact ((frame_newTransaction id s).2.2.2.2).trans h
  | dropAsyncOp e p => exact latch_dropConnectionAsync e p s v h
  | createIngressCtrlOp t => exact latch_createIngressControlStream t s v h
  | runLoopCallbackOp => exact ((frame_runLoopCallback s).2.2.2.2).trans h

theorem maxAllowed_applyOp_le (op : Op) (s : Session) :
    (applyOp op s).maxAllowedStreamId ≤ s.maxAllowedStreamId := by
  cases op with
  | drainOp g => exact Nat.le_of_eq (sameCore_drainImpl g s).2.2.2.1
  | closeWhenIdleOp g => exact Nat.le_of_eq (sameCore_closeWhenIdle g s).2.2.2.1
  | onGoawayAckOp g => exact Nat.le_of_eq (sameCore_onGoawayAck g s).2.2.2.1
  | goawayCanceledOp => exact Nat.le_refl _
  | headersCompleteOp c =>
      exact Nat.le_of_eq (sameCore_v1HeadersComplete c s).2.2.2.1
  | checkSendingGoawayOp k =>
      exact Nat.le_of_eq (sameCore_v1CheckSendingGoaway k s).2.2.2.1
  | onGoawayOp m g => exact (frame_onGoaway m g s).2.2.2.2
  | dropSyncOp e => exact Nat.le_of_eq (frame_dropConnectionSync e s).2.2.2.1
  | checkForShutdownOp =>
      exact Nat.le_of_eq (sameCore_checkForShutdown s).2.2.2.1
  | onNewBidiOp id =>
      exact Nat.le_of_eq (frame_onNewBidirectionalStream id s).2.2.1
  | onNewUniOp id =>
      exact Nat.le_of_eq (frame_onNewUnidirectionalStream id s).2.2.2.1
  | newTransactionOp id => exact Nat.le_of_eq (frame_newTransaction id s).2.2.2.1
  | dropAsyncOp e p => exact Nat.le_of_eq (frame_dropConnectionAsync e p s).2.2.2
  | createIngressCtrlOp t =>
      exact Nat.le_of_eq (frame_createIngressControlStream t s).2.2.2
  | runLoopCallbackOp => exact Nat.le_of_eq (frame_runLoopCallback s).2.2.2.1

/-- Folding a list of operations over a session. -/
def foldSteps (ops : List Op) (s : Session) : Session :=
  ops.foldl (fun t op => applyOp op t) s

theorem reachable_foldSteps (ops : List Op) {s : Session}
    (h : Reachable s) : Reachable (foldSteps ops s) := by
  induction ops generalizing s with
  | nil => exact h
  | cons op ops ih => exact ih (Reachable.next op h)

theorem direction_foldSteps (ops : List Op) (s : Session) :
    (foldSteps ops s).direction = s.direction := by
  induction ops generalizing s with
  | nil => rfl
  | cons op ops ih => exact (ih (applyOp op s)).trans (direction_applyOp op s)

theorem version_foldSteps (ops : List Op) (s : Session) :
    (foldSteps ops s).version = s.version := by
  induction ops generalizing s with
  | nil => rfl
  | cons op ops ih => exact (ih (applyOp op s)).trans (version_applyOp op s)

theorem latch_foldSteps (ops : List Op) (s : Session)
    (v : HTTP3ErrorCode × ProxygenError) (h : s.dropInNextLoop = some v) :
    (foldSteps ops s).dropInNextLoop = some v := by
  induction ops generalizing s with
  | nil => exact h
  | cons op ops ih => exact ih (applyOp op s) (latch_applyOp op s v h)

theorem maxAllowed_foldSteps_le (ops : List Op) (s : Session) :
    (foldSteps ops s).maxAllowedStreamId ≤ s.maxAllowedStreamId := by
  induction ops generalizing s with
  | nil => exact Nat.le_refl _
  | cons op ops ih =>
      exact Nat.le_trans (ih (applyOp op s)) (maxAllowed_applyOp_le op s)

theorem inv_foldSteps (ops : List Op) (s : Session) (hinv : SessionInv s) :
    SessionInv (foldSteps ops s) := by
  induction ops generalizing s with
  | nil => exact hinv
  | cons op ops ih => exact ih (applyOp op s) (inv_applyOp op s hinv)

theorem rank_foldSteps (ops : List Op) (s : Session) (hinv : SessionInv s) :
    drainRank s.drainState ≤ drainRank (foldSteps ops s).drainState := by
  induction ops generalizing s with
  | nil => exact Nat.le_refl _
  | cons op ops ih =>
      exact Nat.le_trans (mono_applyOp op s hinv)
        (ih (applyOp op s) (inv_applyOp op s hinv))

/-! The bound maxIncomingStreamId places on accepted peer bidirectional
streams. -/

/-- Every peer-initiated stream in the registry has an id bounded by
maxIncomingStreamId. -/
def BidiInv (s : Session) : Prop :=
  ∀ st ∈ s.streams, st.fromPeer = true → st.id ≤ s.maxIncomingStreamId

theorem bidiInv_congr {s t : Session} (hst : t.streams = s.streams)
    (hmi : s.maxIncomingStreamId ≤ t.maxIncomingStreamId)
    (h : BidiInv s) : BidiInv t := by
  intro st hmem hp
  rw [hst] at hmem
  exact Nat.le_trans (h st hmem hp) hmi

theorem bidiInv_shape {s t : Session}
    (hshape : ∀ st ∈ t.streams,
      ∃ st2 ∈ s.streams, st.id = st2.id ∧ st.fromPeer = st2.fromPeer)
    (hmi : s.maxIncomingStreamId ≤ t.maxIncomingStreamId)
    (h : BidiInv s) : BidiInv t := by
  intro st hmem hp
  rcases hshape st hmem with ⟨st2, hmem2, hid, hfp⟩
  rw [hid]
  refine Nat.le_trans (h st2 hmem2 ?_) hmi
  rw [← hfp]
  exact hp

theorem bidiInv_onNewBidirectionalStream (id : Nat) (s : Session)
    (h : BidiInv s) : BidiInv (onNewBidirectionalStream id s) := by
  unfold onNewBidirectionalStream
  split
  · exact h
  · intro st hmem hp
    rcases List.mem_append.1 hmem with hmem | hmem
    · exact Nat.le_trans (h st hmem hp) (Nat.le_max_left _ _)
    · rcases List.mem_singleton.1 hmem with rfl
      exact Nat.le_max_right _ _

theorem bidiInv_newTransaction (id : Nat) (s : Session)
    (h : BidiInv s) : BidiInv (newTransaction id s).2 := by
  unfold newTransaction
  split
  · exact h
  · split
    · exact h
    · split
      · exact h
      · intro st hmem hp
        rcases List.mem_append.1 hmem with hmem | hmem
        · exact h st hmem hp
        · rcases List.mem_singleton.1 hmem with rfl
          cases hp

theorem bidiInv_applyOp (op : Op) (s : Session) (h : BidiInv s) :
    BidiInv (applyOp op s) := by
  cases op with
  | drainOp g =>
      exact bidiInv_congr (streams_drainImpl g s)
        (Nat.le_of_eq (sameCore_drainImpl g s).2.2.1.symm) h
  | closeWhenIdleOp g =>
      exact bidiInv_congr (streams_closeWhenIdle g s)
        (Nat.le_of_eq (sameCore_closeWhenIdle g s).2.2.1.symm) h
  | onGoawayAckOp g =>
      exact bidiInv_congr (streams_onGoawayAck g s)
        (Nat.le_of_eq (sameCore_onGoawayAck g s).2.2.1.symm) h
  | goawayCanceledOp => exact bidiInv_congr rfl (Nat.le_refl _) h
  | headersCompleteOp c =>
      exact bidiInv_congr (streams_v1HeadersComplete c s)
        (Nat.le_of_eq (sameCore_v1HeadersComplete c s).2.2.1.symm) h
  | checkSendingGoawayOp k =>
      exact bidiInv_congr (streams_v1CheckSendingGoaway k s)
        (Nat.le_of_eq (sameCore_v1CheckSendingGoaway k s).2.2.1.symm) h
  | onGoawayOp m g =>
      exact bidiInv_shape (streams_shape_onGoaway m g s)
        (Nat.le_of_eq (frame_onGoaway m g s).2.2.1.symm) h
  | dropSyncOp e =>
      exact bidiInv_shape (streams_shape_dropConnectionSync e s)
        (Nat.le_of_eq (frame_dropConnectionSync e s).2.2.1.symm) h
  | checkForShutdownOp =>
      exact bidiInv_congr (streams_checkForShutdown s)
        (Nat.le_of_eq (sameCore_checkForShutdown s).2.2.1.symm) h
  | onNewBidiOp id => exact bidiInv_onNewBidirectionalStream id s h
  | onNewUniOp id =>
      exact bidiInv_congr (streams_onNewUnidirectionalStream id s)
        (Nat.le_of_eq (frame_onNewUnidirectionalStream id s).2.2.1.symm) h
  | newTransactionOp id => exact bidiInv_newTransaction id s h
  | dropAsyncOp e p =>
      exact bidiInv_congr (streams_dropConnectionAsync e p s)
        (Nat.le_of_eq (frame_dropConnectionAsync e p s).2.2.1.symm) h
  | createIngressCtrlOp t =>
      exact bidiInv_congr (streams_createIngressControlStream t s)
        (Nat.le_of_eq (frame_createIngressControlStream t s).2.2.1.symm) h
  | runLoopCallbackOp =>
      exact bidiInv_shape (streams_shape_runLoopCallback s)
        (Nat.le_of_eq (frame_runLoopCallback s).2.2.1.symm) h

theorem bidiInv_of_reachable {s : Session} (h : Reachable s) : BidiInv s := by
  induction h with
  | init d v =>
      intro st hmem hp
      cases hmem
  | next op h ih => exact bidiInv_applyOp _ _ ih

/-! Support lemmas for the GOAWAY-reception claim. -/

theorem maxAllowed_onGoaway (m : Nat) (g : Bool) (s : Session)
    (hdir : s.direction = .UPSTREAM) (hver : s.version ≠ .H1Q_FB_V1) :
    (onGoaway m g s).maxAllowedStreamId = min s.maxAllowedStreamId m := by
  obtain ⟨dir, ver, ds, mi, ma, gs, strs, pu, ec, ic, dl, dr, sg⟩ := s
  cases dir <;> cases ver <;> cases ds <;> cases g <;>
    simp_all [onGoaway, drainImpl, versionSendGoaway, goawaySendGoaway,
      getGoawayStreamId, checkForShutdown]

theorem streams_onGoaway_eq (m : Nat) (g : Bool) (s : Session)
    (hdir : s.direction = .UPSTREAM) (hver : s.version ≠ .H1Q_FB_V1) :
    (onGoaway m g s).streams =
      s.streams.map (goawayFailStream (min s.maxAllowedStreamId m)) := by
  obtain ⟨dir, ver, ds, mi, ma, gs, strs, pu, ec, ic, dl, dr, sg⟩ := s
  cases dir <;> cases ver <;> cases ds <;> cases g <;>
    simp_all [onGoaway, drainImpl, versionSendGoaway, goawaySendGoaway,
      getGoawayStreamId, checkForShutdown]

theorem drainState_onGoaway_up (m : Nat) (g : Bool) (s : Session)
    (hdir : s.direction = .UPSTREAM) (hver : s.version ≠ .H1Q_FB_V1)
    (hinv : SessionInv s) :
    (onGoaway m g s).drainState = .FIRST_GOAWAY ∨
      (onGoaway m g s).drainState = .DONE := by
  obtain ⟨dir, ver, ds, mi, ma, gs, strs, pu, ec, ic, dl, dr, sg⟩ := s
  cases dir <;> cases ver <;> cases ds <;> cases g <;>
    simp_all [SessionInv, onGoaway, drainImpl, versionSendGoaway,
      goawaySendGoaway, getGoawayStreamId, checkForShutdown]

theorem newTransaction_none_of_draining (newId : Nat) (t : Session)
    (h : t.drainState = .FIRST_GOAWAY ∨ t.drainState = .DONE) :
    (newTransaction newId t).1 = none := by
  unfold newTransaction
  rcases h with h | h <;>
    rw [if_pos (by rw [h]; simp)]

theorem drainState_of_rank_ge_four (d : DrainState)
    (hr : 4 ≤ drainRank d) (hs : d ≠ .SECOND_GOAWAY) :
    d = .FIRST_GOAWAY ∨ d = .DONE := by
  cases d <;> simp_all [drainRank]

/-! The claims. -/

/-- C1: for a framed-profile downstream session, draining generates a first
GOAWAY with stream id equal to the maximum representable varint (2 ^ 62 - 1);
when its delivery ack arrives, a second GOAWAY is generated with stream id
equal to maxIncomingStreamId and the drain state moves to SECOND_GOAWAY;
when the second GOAWAY delivery ack arrives, the drain state becomes DONE. -/
theorem goaway_drain_two_phase (s : Session)
    (hdir : s.direction = .DOWNSTREAM) (hver : s.version ≠ .H1Q_FB_V1)
    (hds : s.drainState = .NONE) :
    (drainImpl true s).goawaysSent = s.goawaysSent ++ [kEightByteLimit] ∧
    (drainImpl true s).drainState = .FIRST_GOAWAY ∧
    (onGoawayAck true (drainImpl true s)).goawaysSent =
      s.goawaysSent ++ [kEightByteLimit, s.maxIncomingStreamId] ∧
    (onGoawayAck true (drainImpl true s)).drainState = .SECOND_GOAWAY ∧
    (onGoawayAck true (onGoawayAck true (drainImpl true s))).drainState =
      .DONE := by
  obtain ⟨dir, ver, ds, mi, ma, gs, strs, pu, ec, ic, dl, dr, sg⟩ := s
  cases dir <;> cases ver <;> cases ds <;>
    simp_all [drainImpl, versionSendGoaway, goawaySendGoaway,
      getGoawayStreamId, onGoawayAck]

/-- Session after accepting peer request streams 0 and 4, as in the boundary
scenario of the specification. -/
def c1Session : Session :=
  onNewBidirectionalStream 4
    (onNewBidirectionalStream 0 (mkSession .DOWNSTREAM .HQ))

/-- Witness for C1: the two-phase GOAWAY drain on a server that accepted peer
streams 0 and 4 sends GOAWAY ids 2 ^ 62 - 1 and then 4. -/
theorem goaway_drain_two_phase_witness :
    (drainImpl true c1Session).goawaysSent =
      c1Session.goawaysSent ++ [kEightByteLimit] ∧
    (drainImpl true c1Session).drainState = .FIRST_GOAWAY ∧
    (onGoawayAck true (drainImpl true c1Session)).goawaysSent =
      c1Session.goawaysSent ++
        [kEightByteLimit, c1Session.maxIncomingStreamId] ∧
    (onGoawayAck true (drainImpl true c1Session)).drainState =
      .SECOND_GOAWAY ∧
    (onGoawayAck true
      (onGoawayAck true (drainImpl true c1Session))).drainState = .DONE :=
  goaway_drain_two_phase c1Session (by decide) (by decide) (by decide)

/-- C2: from any reachable session state, no operation moves the drain state
to an earlier state under the ordering NONE < PENDING < CLOSE_SENT <
CLOSE_RECEIVED < FIRST_GOAWAY < SECOND_GOAWAY < DONE. -/
theorem drainState_monotone (s : Session) (op : Op) (h : Reachable s) :
    drainRank s.drainState ≤ drainRank (applyOp op s).drainState :=
  mono_applyOp op s (sessionInv_of_reachable h)

/-- Witness for C2: drain on a fresh server session moves NONE forward. -/
theorem drainState_monotone_witness :
    drainRank (mkSession .DOWNSTREAM .HQ).drainState ≤
      drainRank
        (applyOp (.drainOp true) (mkSession .DOWNSTREAM .HQ)).drainState :=
  drainState_monotone (mkSession .DOWNSTREAM .HQ) (.drainOp true)
    (Reachable.init .DOWNSTREAM .HQ)

/-- C3 counterexample: a fresh server session accepts the peer-initiated
unidirectional stream 2 (it enters the dispatcher pending set), yet
maxIncomingStreamId stays 0 < 2: onNewUnidirectionalStream never updates
maxIncomingStreamId. -/
theorem maxIncoming_uni_counterexample :
    (onNewUnidirectionalStream 2
      (mkSession .DOWNSTREAM .HQ)).pendingUniStreams = [2] ∧
    (onNewUnidirectionalStream 2
      (mkSession .DOWNSTREAM .HQ)).maxIncomingStreamId = 0 := by
  constructor <;> rfl

/-- C3 amended: for every peer-initiated bidirectional stream the session
accepts, maxIncomingStreamId is at least that stream id at all times after
acceptance; accepted unidirectional streams do not update
maxIncomingStreamId. -/
theorem maxIncoming_ge_accepted_bidi (s : Session) (h : Reachable s) :
    ∀ st ∈ s.streams, st.fromPeer = true → st.id ≤ s.maxIncomingStreamId :=
  bidiInv_of_reachable h

/-- Session after accepting peer bidirectional stream 4. -/
def c3Session : Session :=
  onNewBidirectionalStream 4 (mkSession .DOWNSTREAM .HQ)

/-- Witness for the amended C3: after accepting peer bidirectional stream 4,
maxIncomingStreamId is at least 4. -/
theorem maxIncoming_ge_accepted_bidi_witness :
    (4 : Nat) ≤ c3Session.maxIncomingStreamId :=
  maxIncoming_ge_accepted_bidi c3Session
    (Reachable.next (.onNewBidiOp 4) (Reachable.init .DOWNSTREAM .HQ))
    ⟨4, true, false, []⟩ (by decide) rfl

/-- C4: on a peer reset of a request stream with code R, the reply reset code
is HTTP_REQUEST_CANCELLED upstream, HTTP_REQUEST_REJECTED downstream before
ingress, HTTP_NO_ERROR downstream after ingress; and the transaction error is
StreamUnacknowledged exactly when R is HTTP_REQUEST_REJECTED, EarlyDataFailed
when R is GIVEUP_ZERO_RTT, and StreamAbort otherwise. -/
theorem onResetStream_mapping (d : TransportDirection) (i : Bool)
    (R : HTTP3ErrorCode) :
    onResetStream d i R = ⟨specReplyError d i, specTxnError R⟩ := by
  cases d <;> cases i <;> cases R <;> rfl

/-- C5: after onGoaway(maxId) on a reachable upstream framed session, the
accepted limit becomes the minimum of the previous limit and maxId (repeated
calls never raise it), every already-created non-detached stream with id
above maxId is failed with StreamUnacknowledged, and newTransaction returns
null from then on, whatever operations follow. -/
theorem onGoaway_upstream_claim (s : Session) (maxId : Nat) (g : Bool)
    (hr : Reachable s) (hdir : s.direction = .UPSTREAM)
    (hver : s.version ≠ .H1Q_FB_V1) :
    (onGoaway maxId g s).maxAllowedStreamId =
      min s.maxAllowedStreamId maxId ∧
    (onGoaway maxId g s).maxAllowedStreamId ≤ s.maxAllowedStreamId ∧
    (∀ st ∈ s.streams, st.detached = false → maxId < st.id →
      ∃ st2 ∈ (onGoaway maxId g s).streams, st2.id = st.id ∧
        ProxygenError.kErrorStreamUnacknowledged ∈ st2.txnErrors) ∧
    (∀ ops : List Op, ∀ newId : Nat,
      (newTransaction newId (foldSteps ops (onGoaway maxId g s))).1 =
        none) := by
  have hinv := sessionInv_of_reachable hr
  have heq := maxAllowed_onGoaway maxId g s hdir hver
  refine ⟨heq, ?_, ?_, ?_⟩
  · rw [heq]
    exact Nat.min_le_left _ _
  · intro st hmem hdet hgt
    rw [streams_onGoaway_eq maxId g s hdir hver]
    refine ⟨goawayFailStream (min s.maxAllowedStreamId maxId) st,
      List.mem_map_of_mem _ hmem, goawayFailStream_id _ _, ?_⟩
    unfold goawayFailStream
    rw [if_pos ⟨by simp [hdet],
      Nat.lt_of_le_of_lt (Nat.min_le_right _ _) hgt⟩]
    unfold errorOnTransaction
    rw [if_neg (by simp [hdet])]
    exact List.mem_append_right _ (List.mem_singleton.2 rfl)
  · intro ops newId
    have hinv2 : SessionInv (onGoaway maxId g s) := inv_onGoaway maxId g s hinv
    have hds2 := drainState_onGoaway_up maxId g s hdir hver hinv
    have hrank2 : 4 ≤ drainRank
        (foldSteps ops (onGoaway maxId g s)).drainState := by
      refine Nat.le_trans ?_ (rank_foldSteps ops _ hinv2)
      rcases hds2 with h | h <;> rw [h] <;> simp [drainRank]
    have hdirF : (foldSteps ops (onGoaway maxId g s)).direction =
        .UPSTREAM := by
      rw [direction_foldSteps, (frame_onGoaway maxId g s).2.1, hdir]
    have hinvF : SessionInv (foldSteps ops (onGoaway maxId g s)) :=
      inv_foldSteps ops _ hinv2
    exact newTransaction_none_of_draining newId _
      (drainState_of_rank_ge_four _ hrank2 (hinvF.2.2 hdirF))

/-- Upstream session after creating the local transaction on stream 4. -/
def c5Session : Session := (newTransaction 4 (mkSession .UPSTREAM .HQ)).2

/-- Witness for C5: on an upstream session with local stream 4, after
onGoaway(0) the limit is min of the previous limit and 0, stream 4 is failed
with StreamUnacknowledged, and newTransaction yields null. -/
theorem onGoaway_upstream_claim_witness :
    ((onGoaway 0 true c5Session).maxAllowedStreamId =
      min c5Session.maxAllowedStreamId 0) ∧
    (∃ st2 ∈ (onGoaway 0 true c5Session).streams, st2.id = 4 ∧
      ProxygenError.kErrorStreamUnacknowledged ∈ st2.txnErrors) ∧
    (newTransaction 8 (foldSteps [] (onGoaway 0 true c5Session))).1 =
      none := by
  have h := onGoaway_upstream_claim c5Session 0 true
    (Reachable.next (.newTransactionOp 4) (Reachable.init .UPSTREAM .HQ))
    (by decide) (by decide)
  exact ⟨h.1, h.2.2.1 ⟨4, false, false, []⟩ (by decide) rfl (by decide),
    h.2.2.2 [] 8⟩

/-- C6 counterexample: one write of 10 bytes of which the transport hands 4
back leaves bytesWritten at 6 while 10 bytes were passed to writeChain, so
bytesWritten does not equal the cumulative bytes passed to writeChain. -/
theorem bytesWritten_partial_write_counterexample :
    (handleWrite mkEgressAcct ⟨10, some 4, false⟩).2.bytesWritten = 6 ∧
    (handleWrite mkEgressAcct
      ⟨10, some 4, false⟩).2.totalPassedToWriteChain = 10 ∧
    (handleWrite mkEgressAcct ⟨10, some 4, false⟩).2.bytesWritten ≠
      (handleWrite mkEgressAcct
        ⟨10, some 4, false⟩).2.totalPassedToWriteChain := by
  refine ⟨rfl, rfl, ?_⟩
  decide

theorem bytesWritten_handleWrite (st : EgressAcct) (e : WriteEvent) :
    (handleWrite st e).2.bytesWritten = st.bytesWritten + acceptedBytes e := by
  obtain ⟨dataLen, outcome, sendEof⟩ := e
  cases outcome with
  | none => simp [handleWrite, writeBase, acceptedBytes]
  | some k =>
      unfold handleWrite writeBase acceptedBytes
      dsimp only
      split <;> rfl

/-- Total bytes the transport kept across a sequence of writes. -/
def sumAccepted (es : List WriteEvent) : Nat := (es.map acceptedBytes).sum

/-- C6 amended: bytesWritten equals the cumulative bytes the transport kept:
each successful writeChain call adds the bytes passed minus the bytes handed
back, and a failed call adds nothing. -/
theorem bytesWritten_eq_sum_accepted (st : EgressAcct)
    (es : List WriteEvent) :
    (runWrites st es).bytesWritten = st.bytesWritten + sumAccepted es := by
  induction es generalizing st with
  | nil => simp [runWrites, sumAccepted]
  | cons e es ih =>
      show (runWrites (handleWrite st e).2 es).bytesWritten = _
      rw [ih, bytesWritten_handleWrite]
      simp [sumAccepted, Nat.add_assoc]

/-- Transcription of the claim for the FIN flag: after the onWriteReady call
and the buffer split, FIN is requested iff the stream has a pending EOM and
no pending body. -/
def specFinRequested (st : ReqStream) (canSend : Nat)
    (eff : OnWriteReadyEffect) : Bool :=
  let stW := if wantsOnWriteReady st canSend then applyOnWriteReady st eff
             else st
  let stSplit : ReqStream :=
    { stW with writeBufLen := stW.writeBufLen - min canSend stW.writeBufLen }
  stW.pendingEOM ∧ ¬hasPendingBody stSplit

theorem subSizeT_of_le {a b : Nat} (hb : b ≤ a) (ha : a < 2 ^ 64) :
    subSizeT a b = a - b := by
  unfold subSizeT
  have hbm : b % 2 ^ 64 = b := Nat.mod_eq_of_lt (Nat.lt_of_le_of_lt hb ha)
  have ham : a % 2 ^ 64 = a := Nat.mod_eq_of_lt ha
  rw [ham, hbm]
  have h1 : 2 ^ 64 + a - b = 2 ^ 64 + (a - b) := by omega
  rw [h1, Nat.add_mod_left]
  exact Nat.mod_eq_of_lt (by omega)

/-- C7 counterexample: a served stream with 5 buffered bytes, a pending EOM,
no pending transaction body and a queued EOM wants onWriteReady at canSend =
2 (EOM-only branch of wantsOnWriteReady), and the size_t subtraction at line
2020 wraps: onWriteReady receives 2 ^ 64 - 3, not canSend minus the 5
buffered bytes. -/
theorem requestStreamWriteImpl_wrap_counterexample :
    (requestStreamWriteImpl ⟨5, true, true, false, true⟩ (some 2) 2
        ⟨0, true, true, false, true⟩ (some 0)).onWriteReadyArg =
      some (2 ^ 64 - 3) ∧
    wantsOnWriteReady ⟨5, true, true, false, true⟩ (min 2 2) = true ∧
    (requestStreamWriteImpl ⟨5, true, true, false, true⟩ (some 2) 2
        ⟨0, true, true, false, true⟩ (some 0)).onWriteReadyArg ≠
      some (min 2 2 - 5) ∧
    (2 ^ 64 - 3 : Int) ≠ (2 : Int) - (5 : Int) := by
  refine ⟨by decide, by decide, by decide, by decide⟩

/-- C7 amended: when the scheduler serves a request stream with send window
`window` and remaining budget `maxEgress`, the bytes handed to the transport
are at most canSend = min window maxEgress; onWriteReady is invoked exactly
when the transaction wants more data, with the size_t difference of canSend
and the bytes already buffered, which equals canSend minus the buffered
bytes whenever the buffer does not exceed canSend but wraps modulo 2 ^ 64
otherwise; and FIN is requested iff a pending EOM remains with no pending
body. -/
theorem requestStreamWriteImpl_spec (st : ReqStream) (fc : Option Nat)
    (window maxEgress : Nat) (eff : OnWriteReadyEffect)
    (writeOutcome : Option Nat) (hfc : fc = some window) :
    (requestStreamWriteImpl st fc maxEgress eff
        writeOutcome).handedToTransport ≤ min window maxEgress ∧
    (requestStreamWriteImpl st fc maxEgress eff
        writeOutcome).onWriteReadyArg =
      (if wantsOnWriteReady st (min window maxEgress) then
        some (subSizeT (min window maxEgress) st.writeBufLen)
      else none) ∧
    (st.writeBufLen ≤ min window maxEgress → min window maxEgress < 2 ^ 64 →
      (requestStreamWriteImpl st fc maxEgress eff
          writeOutcome).onWriteReadyArg =
        (if wantsOnWriteReady st (min window maxEgress) then
          some (min window maxEgress - st.writeBufLen)
        else none)) ∧
    (requestStreamWriteImpl st fc maxEgress eff
        writeOutcome).finRequested =
      specFinRequested st (min window maxEgress) eff := by
  have hmain : (requestStreamWriteImpl st fc maxEgress eff
        writeOutcome).handedToTransport ≤ min window maxEgress ∧
      (requestStreamWriteImpl st fc maxEgress eff
          writeOutcome).onWriteReadyArg =
        (if wantsOnWriteReady st (min window maxEgress) then
          some (subSizeT (min window maxEgress) st.writeBufLen)
        else none) ∧
      (requestStreamWriteImpl st fc maxEgress eff
          writeOutcome).finRequested =
        specFinRequested st (min window maxEgress) eff := by
    subst hfc
    unfold requestStreamWriteImpl specFinRequested
    dsimp only
    split_ifs with h1 h2 h3 <;>
      cases writeOutcome <;>
        simp_all [Nat.min_le_left, Nat.min_le_right]
  refine ⟨hmain.1, hmain.2.1, ?_, hmain.2.2⟩
  intro hle hlt
  rw [hmain.2.1, subSizeT_of_le hle hlt]

/-- Witness for C7: a served stream with 3 buffered bytes, window 8, budget
12 and a transaction that appends 2 more bytes then queues EOM; here the
buffer does not exceed canSend, so onWriteReady receives canSend - 3. -/
theorem requestStreamWriteImpl_spec_witness :
    (requestStreamWriteImpl ⟨3, false, true, true, false⟩ (some 8) 12
        ⟨2, true, true, false, false⟩ (some 0)).handedToTransport ≤
      min 8 12 ∧
    (requestStreamWriteImpl ⟨3, false, true, true, false⟩ (some 8) 12
        ⟨2, true, true, false, false⟩ (some 0)).onWriteReadyArg =
      (if wantsOnWriteReady ⟨3, false, true, true, false⟩ (min 8 12) then
        some (subSizeT (min 8 12)
          (⟨3, false, true, true, false⟩ : ReqStream).writeBufLen)
      else none) ∧
    (requestStreamWriteImpl ⟨3, false, true, true, false⟩ (some 8) 12
        ⟨2, true, true, false, false⟩ (some 0)).onWriteReadyArg =
      (if wantsOnWriteReady ⟨3, false, true, true, false⟩ (min 8 12) then
        some (min 8 12 -
          (⟨3, false, true, true, false⟩ : ReqStream).writeBufLen)
      else none) ∧
    (requestStreamWriteImpl ⟨3, false, true, true, false⟩ (some 8) 12
        ⟨2, true, true, false, false⟩ (some 0)).finRequested =
      specFinRequested ⟨3, false, true, true, false⟩ (min 8 12)
        ⟨2, true, true, false, false⟩ := by
  have h := requestStreamWriteImpl_spec ⟨3, false, true, true, false⟩
    (some 8) 8 12 ⟨2, true, true, false, false⟩ (some 0) rfl
  exact ⟨h.1, h.2.1, h.2.2.1 (by decide) (by decide), h.2.2.2⟩

/-- C8: a second peer control stream of a type whose ingress codec is already
installed schedules exactly one deferred connection drop with
HTTP_WRONG_STREAM_COUNT; the single-slot latch keeps that first request
whatever operations, duplicate streams or drop requests follow. -/
theorem duplicate_control_stream_single_drop (s : Session)
    (t : UnidirectionalStreamType) (hegress : t ∈ s.egressCtrlStreams)
    (hcodec : t ∈ s.ingressCtrlCodecs) (hlatch : s.dropInNextLoop = none) :
    (createIngressControlStream t s).dropInNextLoop =
      some (.HTTP_WRONG_STREAM_COUNT, .kErrorConnection) ∧
    ∀ ops : List Op,
      (foldSteps ops (createIngressControlStream t s)).dropInNextLoop =
        some (.HTTP_WRONG_STREAM_COUNT, .kErrorConnection) := by
  have h1 : (createIngressControlStream t s).dropInNextLoop =
      some (.HTTP_WRONG_STREAM_COUNT, .kErrorConnection) := by
    unfold createIngressControlStream dropConnectionAsync
    rw [if_neg (not_not_intro hegress), if_pos hcodec, if_pos hlatch]
  exact ⟨h1, fun ops => latch_foldSteps ops _ _ h1⟩

/-- Server session whose CONTROL ingress codec is installed. -/
def c8Session : Session :=
  createIngressControlStream .CONTROL (mkSession .DOWNSTREAM .HQ)

/-- Witness for C8: a duplicate CONTROL stream latches the drop, and a
further duplicate plus an unrelated drop request leave the latch intact. -/
theorem duplicate_control_stream_single_drop_witness :
    (createIngressControlStream .CONTROL c8Session).dropInNextLoop =
      some (.HTTP_WRONG_STREAM_COUNT, .kErrorConnection) ∧
    (foldSteps [.createIngressCtrlOp .CONTROL,
        .dropAsyncOp .HTTP_NO_ERROR .kErrorDropped]
      (createIngressControlStream .CONTROL c8Session)).dropInNextLoop =
      some (.HTTP_WRONG_STREAM_COUNT, .kErrorConnection) := by
  have h := duplicate_control_stream_single_drop c8Session .CONTROL
    (by decide) (by decide) rfl
  exact ⟨h.1, h.2 _⟩

/-- C9: session setup maps exactly h1q-fb, h1q and hq-27 to the H1Q-v1
profile, h1q-fb-v2 to the H1Q-v2 profile, h3-fb-05 and h3-27 to the HTTP/3
profile, and any other ALPN string, or the absence of one, fails setup with
CONNECT_FAILED and installs no profile. -/
theorem alpn_version_mapping :
    getAndCheckApplicationProtocol (some "h1q-fb") = .ok .H1Q_FB_V1 ∧
    getAndCheckApplicationProtocol (some "h1q") = .ok .H1Q_FB_V1 ∧
    getAndCheckApplicationProtocol (some "hq-27") = .ok .H1Q_FB_V1 ∧
    getAndCheckApplicationProtocol (some "h1q-fb-v2") = .ok .H1Q_FB_V2 ∧
    getAndCheckApplicationProtocol (some "h3-fb-05") = .ok .HQ ∧
    getAndCheckApplicationProtocol (some "h3-27") = .ok .HQ ∧
    getAndCheckApplicationProtocol none = .failed CONNECT_FAILED ∧
    ∀ a : String, a ≠ "h1q-fb" → a ≠ "h1q" → a ≠ "hq-27" →
      a ≠ "h1q-fb-v2" → a ≠ "h3-fb-05" → a ≠ "h3-27" →
      getAndCheckApplicationProtocol (some a) = .failed CONNECT_FAILED := by
  refine ⟨by decide, by decide, by decide, by decide, by decide, by decide,
    rfl, ?_⟩
  intro a h1 h2 h3 h4 h5 h6
  simp [getAndCheckApplicationProtocol, h1, h2, h3, h4, h5, h6]

/-- Witness for C9: the ALPN string h2 is not recognized and fails setup. -/
theorem alpn_version_mapping_witness :
    getAndCheckApplicationProtocol (some "h2") = .failed CONNECT_FAILED :=
  alpn_version_mapping.2.2.2.2.2.2.2 "h2" (by decide) (by decide) (by decide)
    (by decide) (by decide) (by decide)

/-- C10: a partial-reliability skip whose mapped stream offset is below the
bytes already committed to the wire leaves the egress buffer untouched, the
trim routine returns 0, and skipBodyTo succeeds without raising an error for
the rewind. -/
theorem trim_below_committed_ignored (st : PRStream) (trimOffset : Nat)
    (h : trimOffset < st.committedBytes) :
    trimPendingEgressBody st trimOffset = (0, st) ∧
    skipBodyTo st true (some trimOffset) true = some (trimOffset, st) := by
  obtain ⟨cb, wb, bs⟩ := st
  have h1 : trimPendingEgressBody ⟨cb, wb, bs⟩ trimOffset =
      (0, ⟨cb, wb, bs⟩) := by
    unfold trimPendingEgressBody
    rw [if_pos h]
  refine ⟨h1, ?_⟩
  unfold skipBodyTo
  simp [h1]

/-- Witness for C10: a skip to offset 7 on a stream with 10 committed bytes
is ignored. -/
theorem trim_below_committed_ignored_witness :
    trimPendingEgressBody ⟨10, 5, 0⟩ 7 = (0, ⟨10, 5, 0⟩) ∧
    skipBodyTo ⟨10, 5, 0⟩ true (some 7) true = some (7, ⟨10, 5, 0⟩) :=
  trim_below_committed_ignored ⟨10, 5, 0⟩ 7 (by decide)

end HQ
